import Mathlib

/-!
# A verification model of the `uc-intg-nzbinfo` status-aggregation core

This file gives a shallow embedding, in Lean, of the status-aggregation and
display-formatting core of the `uc_intg_nzbinfo` Python package
(`client.py` and the parts of `config.py` it consumes), together with
theorems settling the behavioural claims about that core.

Modelling conventions:
* Python `str` is Lean `String`; `len`, slicing, `split`, `lower`/`upper`,
  `startswith`, `in`, `replace` are modelled by the `py*` helpers below.
* Python `float` values are modelled by `PyF`: an exact rational for
  finite values (every in-range computation the claims exercise is exact
  in decimal), plus `inf`/`-inf`/`nan` with IEEE comparison and division
  rules; out-of-double-range literals saturate as `float()` does.
* The ambient instant for `datetime.now(...)` is a `Clock` (UTC date,
  second of day, and local offset), so the current *date* can differ
  between the local zone and a parsed string's own UTC offset.
* Mutation of an `AppStatus` object is modelled by explicit state threading:
  each `status.field = v` becomes a functional record update of the threaded
  value.
* A raised exception is modelled by `Except` with the error value carrying
  the exception text and the state at the raise point (Python exceptions do
  not roll back previous attribute writes); `try/except` is a `match` on
  that `Except` value.
* Each outbound HTTP call is an oracle in an `AppEnv` record: the oracle is
  given the exact URL string (and headers, where the source sends them) the
  source would send, and answers with either a raised exception, or a
  response status plus a decoded JSON body (decoding itself may raise).
  JSON bodies are typed per endpooint, with `Option` fields wherever the
  source reads them through `dict.get` with a default.
-/

/-! ## Python string and number primitives

Character-level string operations are defined on `String.data` (the
character list) rather than through the byte-indexed core `String`
functions, so that every definition evaluates by kernel reduction. -/

/-- `s.drop` on the character list. -/
def strDrop (s : String) (n : ℕ) : String :=
  ⟨s.data.drop n⟩

/-- Single-character containment (`c in s` for a one-character needle). -/
def strContains (s : String) (c : Char) : Bool :=
  s.data.contains c

/-- Python `s.startswith(pre)`. -/
def strStartsWith (s pre : String) : Bool :=
  pre.data.isPrefixOf s.data

/-- Python `s.lower()` (ASCII). -/
def strToLower (s : String) : String :=
  ⟨s.data.map Char.toLower⟩

/-- Python `s.upper()` (ASCII). -/
def strToUpper (s : String) : String :=
  ⟨s.data.map Char.toUpper⟩

/-- Split on every occurrence of a non-empty separator, left to right,
keeping empty pieces — the semantics of both Python `s.split(sep)` and
core `String.splitOn`.  `fuel` starts at `length + 1` and never runs
out. -/
def splitOnGo (sep : List Char) : ℕ → List Char → List Char → List (List Char)
  | 0, acc, l => [acc.reverse ++ l]
  | _ + 1, acc, [] => [acc.reverse]
  | fuel + 1, acc, c :: rest =>
      if sep.isPrefixOf (c :: rest) then
        acc.reverse :: splitOnGo sep fuel [] ((c :: rest).drop sep.length)
      else splitOnGo sep fuel (c :: acc) rest

/-- Python `s.split(sep)` for non-empty `sep` (and `[s]` for empty). -/
def strSplitOn (s sep : String) : List String :=
  if sep.data = [] then [s]
  else (splitOnGo sep.data (s.data.length + 1) [] s.data).map String.mk

/-- Split at every character satisfying `p`, keeping empty pieces. -/
def splitPredGo (p : Char → Bool) : List Char → List Char → List (List Char)
  | acc, [] => [acc.reverse]
  | acc, c :: rest =>
      if p c then acc.reverse :: splitPredGo p [] rest
      else splitPredGo p (c :: acc) rest

/-- Python `sep.join(xs)`. -/
def strIntercalate (sep : String) (xs : List String) : String :=
  ⟨List.intercalate sep.data (xs.map String.data)⟩

/-- Python `s.replace(pat, rep)` (all occurrences, left to right). -/
def strReplace (s pat rep : String) : String :=
  if pat.data = [] then s else strIntercalate rep (strSplitOn s pat)

/-- Python `s[:n]` (one-argument slice with a possibly negative bound):
for `n ≥ 0` the first `n` characters, for `n < 0` all but the last `|n|`
characters, clamped at the empty string. -/
def pyTake (s : String) (n : ℤ) : String :=
  if 0 ≤ n then ⟨s.data.take n.toNat⟩ else ⟨s.data.take ((s.length : ℤ) + n).toNat⟩

/-- Python `sub in s` (substring containment) for a non-empty `sub`. -/
def pyInStr (sub s : String) : Bool :=
  (strSplitOn s sub).length ≠ 1

/-- Python `s.split()` with no separator: split on whitespace runs,
dropping empty pieces. -/
def pySplitWs (s : String) : List String :=
  ((splitPredGo Char.isWhitespace [] s.data).map String.mk).filter (fun p => p ≠ "")

/-- Python `s.strip('/')`: remove leading and trailing `'/'` characters. -/
def pyStripSlash (s : String) : String :=
  ⟨((s.data.dropWhile (fun c => c = '/')).reverse.dropWhile
      (fun c => c = '/')).reverse⟩

/-- Python `s.title()` restricted to ASCII: the first character of each
alphabetic run is upper-cased, the rest lower-cased. -/
def pyTitle (s : String) : String :=
  ⟨(s.data.foldl
      (fun (acc : List Char × Bool) c =>
        if c.isAlpha then
          (acc.1 ++ [if acc.2 then c.toLower else c.toUpper], true)
        else (acc.1 ++ [c], false))
      ([], false)).1⟩

/-- Numeric value of a (possibly empty) all-digit string. -/
def digitsVal (s : String) : ℕ :=
  s.data.foldl (fun a c => a * 10 + (c.toNat - 48)) 0

/-- A CPython `float` value: a finite value, modelled exactly as a
rational (in-range values are kept exact — the binary rounding of a
representable decimal is not modelled, every value the program's claims
exercise being exact in decimal), or one of the non-finite values
`inf` / `-inf` / `nan`. -/
inductive PyF where
  | fin (q : ℚ)
  | inf
  | ninf
  | nan
deriving DecidableEq, Repr

/-- `2^1024 - 2^970`, the IEEE-double round-to-nearest-even overflow
threshold, as an explicit literal. -/
def dblOvf : ℚ := 179769313486231580793728971405303415079934132710037826936173778980444968292764750946649017977587207096330286416692887910946555547851940402630657488671505820681908902000708383676273854845817711531764475730270069855571366959622842914819860834936475292719074168444365510704342711559699508093042880177904174497792

/-- `2^1075`, the reciprocal of the IEEE-double underflow-to-zero
threshold, as an explicit literal. -/
def dblUndDen : ℚ := 404804506614621236704990693437834614099113299528284236713802716054860679135990693783920767402874248990374155728633623822779617474771586953734026799881477019843034848553132722728933815484186432682479535356945490137124014966849385397236206711298319112681620113024717539104666829230461005064372655017292012526615415482186989568

/-- The literal `dblOvf` is `2^1024 - 2^970`. -/
theorem dblOvf_eq : dblOvf = 2 ^ 1024 - 2 ^ 970 := by
  norm_num [dblOvf]

/-- The literal `dblUndDen` is `2^1075`. -/
theorem dblUndDen_eq : dblUndDen = 2 ^ 1075 := by
  norm_num [dblUndDen]

/-- Conversion of an exact decimal value to a CPython `float`, keeping
in-range values exact: magnitudes at or beyond the IEEE-double
round-to-nearest-even overflow threshold `2^1024 - 2^970` saturate to
`±inf`, and magnitudes at or below the underflow threshold `2^-1075`
flush to zero — what `float(s)` does to out-of-range literals. -/
def clampDouble (q : ℚ) : PyF :=
  if dblOvf ≤ q then .inf
  else if q ≤ -dblOvf then .ninf
  else if -(1 / dblUndDen) ≤ q ∧ q ≤ 1 / dblUndDen then .fin 0
  else .fin q

/-- Python `s.strip()` on the character list (ASCII whitespace). -/
def stripWs (cs : List Char) : List Char :=
  ((cs.dropWhile Char.isWhitespace).reverse.dropWhile Char.isWhitespace).reverse

/-- A digit group of a Python numeric literal, with `_` separators:
possibly empty, and every underscore strictly between two digits (no
leading or trailing underscore, no doubled underscore). -/
def validDigitGroup (cs : List Char) : Bool :=
  cs.all (fun c => c.isDigit || c = '_') &&
  !(cs.head? == some '_') && !(cs.getLast? == some '_') &&
  (cs.zip cs.tail).all (fun p => !(p.1 == '_' && p.2 == '_'))

/-- A digit group with its `_` separators removed. -/
def groupDigits (cs : List Char) : List Char :=
  cs.filter (fun c => c ≠ '_')

/-- The exponent part of a float literal (after `e`/`E`): an optional
sign and a non-empty digit group. -/
def parseExpPart (cs : List Char) : Option ℤ :=
  let (esgn, ecs) : ℤ × List Char :=
    match cs with
    | '-' :: r => (-1, r)
    | '+' :: r => (1, r)
    | r => (1, r)
  if ¬ ecs.isEmpty ∧ validDigitGroup ecs then
    some (esgn * (digitsVal ⟨groupDigits ecs⟩ : ℤ))
  else none

/-- The mantissa of a float literal: `[int][.frac]`, each part a digit
group, with at least one digit overall. -/
def parseDecMantissa (cs : List Char) : Option ℚ :=
  match splitOnGo ['.'] (cs.length + 1) [] cs with
  | [ip] =>
      if validDigitGroup ip ∧ ¬ (groupDigits ip).isEmpty then
        some (digitsVal ⟨groupDigits ip⟩ : ℚ)
      else none
  | [ip, fp] =>
      if validDigitGroup ip ∧ validDigitGroup fp ∧
          (¬ (groupDigits ip).isEmpty ∨ ¬ (groupDigits fp).isEmpty) then
        some ((digitsVal ⟨groupDigits ip⟩ : ℚ)
          + (digitsVal ⟨groupDigits fp⟩ : ℚ) / 10 ^ (groupDigits fp).length)
      else none
  | _ => none

/-- CPython `float(s)` (ASCII): surrounding whitespace stripped, an
optional sign, then — case-insensitively — `inf`/`infinity`/`nan`, or a
decimal literal with an optional fraction, an optional `e`/`E` exponent,
and `_` digit-group separators.  A `none` is the `ValueError` the source
catches; out-of-double-range literals saturate through `clampDouble`. -/
def pyFloat (s : String) : Option PyF :=
  let cs := stripWs s.data
  let (sgn, body) : ℚ × List Char :=
    match cs with
    | '-' :: r => (-1, r)
    | '+' :: r => (1, r)
    | r => (1, r)
  let lower := body.map Char.toLower
  if lower = "inf".data ∨ lower = "infinity".data then
    some (if sgn < 0 then .ninf else .inf)
  else if lower = "nan".data then some .nan
  else
    match splitPredGo (fun c => c == 'e' || c == 'E') [] body with
    | [mant] => (parseDecMantissa mant).map (fun m => clampDouble (sgn * m))
    | [mant, ex] =>
        match parseDecMantissa mant, parseExpPart ex with
        | some m, some e =>
            some (clampDouble (sgn *
              (if 0 ≤ e then m * 10 ^ e.toNat else m / 10 ^ (-e).toNat)))
        | _, _ => none
    | _ => none

/-- Round to the nearest integer, ties to even — the rounding used by
Python `format(x, '.0f')`. -/
def rndHalfEven (q : ℚ) : ℤ :=
  let f := ⌊q⌋
  let r := q - f
  if r < 1/2 then f
  else if 1/2 < r then f + 1
  else if f % 2 = 0 then f else f + 1

/-- Python `f"{x:.0f}"` on a non-negative value. -/
def formatF0 (q : ℚ) : String :=
  toString (rndHalfEven q)

/-- Python `f"{x:.1f}"`. -/
def formatF1 (q : ℚ) : String :=
  let n := rndHalfEven (q * 10)
  let m := n.natAbs
  (if n < 0 then "-" else "") ++ toString (m / 10) ++ "." ++ toString (m % 10)

/-- Python `f"{n:02d}"`. -/
def pad2 (n : ℤ) : String :=
  let s := toString n
  if s.length < 2 then "0" ++ s else s

/-- Python `f"{n:04d}"` for a natural (used by `strftime("%Y")`). -/
def pad4 (n : ℕ) : String :=
  let s := toString n
  if s.length ≥ 4 then s
  else String.mk (List.replicate (4 - s.length) '0') ++ s

/-! ## Python dates (`datetime.date` / `datetime.fromisoformat`)

The program only ever takes `.date()` of a parsed datetime and compares
dates by day difference, so a date is modelled by its civil triple and the
difference by CPython's `date.toordinal`. -/

structure PyDate where
  year : ℕ
  month : ℕ
  day : ℕ
deriving DecidableEq, Repr

def isLeapYear (y : ℕ) : Bool :=
  y % 4 = 0 ∧ (y % 100 ≠ 0 ∨ y % 400 = 0)

def daysInMonth (y m : ℕ) : ℕ :=
  if m = 2 then (if isLeapYear y then 29 else 28)
  else if m = 4 ∨ m = 6 ∨ m = 9 ∨ m = 11 then 30
  else 31

def daysBeforeMonth (y m : ℕ) : ℕ :=
  (List.range (m - 1)).foldl (fun acc i => acc + daysInMonth y (i + 1)) 0

/-- CPython `date.toordinal`: day number with 0001-01-01 = 1. -/
def toOrdinal (d : PyDate) : ℕ :=
  (d.year - 1) * 365 + (d.year - 1) / 4 - (d.year - 1) / 100 + (d.year - 1) / 400
    + daysBeforeMonth d.year d.month + d.day

/-- `d + timedelta(days=1)` for a valid date. -/
def nextDay (d : PyDate) : PyDate :=
  if d.day < daysInMonth d.year d.month then ⟨d.year, d.month, d.day + 1⟩
  else if d.month < 12 then ⟨d.year, d.month + 1, 1⟩
  else ⟨d.year + 1, 1, 1⟩

/-- `d + timedelta(days=n)` for a valid date. -/
def addDays (d : PyDate) : ℕ → PyDate
  | 0 => d
  | n + 1 => addDays (nextDay d) n

/-- `d - timedelta(days=1)` for a valid date. -/
def prevDay (d : PyDate) : PyDate :=
  if 1 < d.day then ⟨d.year, d.month, d.day - 1⟩
  else if 1 < d.month then ⟨d.year, d.month - 1, daysInMonth d.year (d.month - 1)⟩
  else ⟨d.year - 1, 12, 31⟩

/-- The current instant, to the second: its UTC civil date, the seconds
elapsed since UTC midnight, and the machine's local UTC offset.
`datetime.now().date()` is `nowDateIn clk clk.localOffsetSec`, and
`datetime.now(timezone(timedelta(seconds=off))).date()` is
`nowDateIn clk off`. -/
structure Clock where
  utcDate : PyDate := ⟨2025, 1, 1⟩
  utcSecOfDay : ℕ := 0
  localOffsetSec : ℤ := 0
deriving DecidableEq, Repr

/-- The current civil date in the zone `offSec` seconds east of UTC: the
UTC date, shifted by one day when the offset carries the instant across
midnight (offsets are strictly below one day, so the shift is at most
one). -/
def nowDateIn (clk : Clock) (offSec : ℤ) : PyDate :=
  let t : ℤ := (clk.utcSecOfDay : ℤ) + offSec
  if t < 0 then prevDay clk.utcDate
  else if 86400 ≤ t then nextDay clk.utcDate
  else clk.utcDate

/-- `strftime("%Y-%m-%d")`. -/
def strftimeYMD (d : PyDate) : String :=
  pad4 d.year ++ "-" ++ pad2 d.month ++ "-" ++ pad2 d.day

def monthAbbrev (m : ℕ) : String :=
  match m with
  | 1 => "Jan" | 2 => "Feb" | 3 => "Mar" | 4 => "Apr" | 5 => "May" | 6 => "Jun"
  | 7 => "Jul" | 8 => "Aug" | 9 => "Sep" | 10 => "Oct" | 11 => "Nov" | _ => "Dec"

/-- `strftime("%b %d")`: month abbreviation and zero-padded day. -/
def strftimeBD (d : PyDate) : String :=
  monthAbbrev d.month ++ " " ++ pad2 d.day

/-- CPython `_parse_isoformat_date` composed with the `date` constructor's
range checks: exactly `YYYY-MM-DD` with a valid proleptic-Gregorian date
in years 1–9999.  As in `validHMSF`, the components are modelled as ASCII
digit runs (CPython reads them with `int()`, which additionally tolerates
interior whitespace, a sign, and non-ASCII decimal digits). -/
def parseIsoDate (s : String) : Option PyDate :=
  match s.data with
  | [y1, y2, y3, y4, '-', m1, m2, '-', d1, d2] =>
      if ([y1, y2, y3, y4, m1, m2, d1, d2].all Char.isDigit) then
        let y := digitsVal ⟨[y1, y2, y3, y4]⟩
        let m := digitsVal ⟨[m1, m2]⟩
        let d := digitsVal ⟨[d1, d2]⟩
        if 1 ≤ y ∧ y ≤ 9999 ∧ 1 ≤ m ∧ m ≤ 12 ∧ 1 ≤ d ∧ d ≤ daysInMonth y m then
          some ⟨y, m, d⟩
        else none
      else none
  | _ => none

/-- Value of a two-ASCII-digit pair. -/
def twoDigitVal (a b : Char) : ℕ :=
  (a.toNat - 48) * 10 + (b.toNat - 48)

/-- CPython `_parse_hh_mm_ss_ff` (3.7–3.10) composed with the range
checks of the `datetime` constructor: `HH`, `HH:MM`, `HH:MM:SS`, or
`HH:MM:SS.fff`/`HH:MM:SS.ffffff` (the fraction must be exactly 3 or 6
digits), with hour ≤ 23, minute ≤ 59, second ≤ 59.  The model reads each
two-character component as an ASCII digit pair (CPython reads it with
`int()`, which additionally tolerates interior whitespace and non-ASCII
decimal digits). -/
def validHMSF (s : String) : Bool :=
  match s.data with
  | [h1, h2] =>
      ([h1, h2].all Char.isDigit) && decide (twoDigitVal h1 h2 ≤ 23)
  | [h1, h2, ':', m1, m2] =>
      ([h1, h2, m1, m2].all Char.isDigit) &&
      decide (twoDigitVal h1 h2 ≤ 23) && decide (twoDigitVal m1 m2 ≤ 59)
  | [h1, h2, ':', m1, m2, ':', s1, s2] =>
      ([h1, h2, m1, m2, s1, s2].all Char.isDigit) &&
      decide (twoDigitVal h1 h2 ≤ 23) && decide (twoDigitVal m1 m2 ≤ 59) &&
      decide (twoDigitVal s1 s2 ≤ 59)
  | h1 :: h2 :: ':' :: m1 :: m2 :: ':' :: s1 :: s2 :: '.' :: frac =>
      ([h1, h2, m1, m2, s1, s2].all Char.isDigit) &&
      decide (twoDigitVal h1 h2 ≤ 23) && decide (twoDigitVal m1 m2 ≤ 59) &&
      decide (twoDigitVal s1 s2 ≤ 59) &&
      (decide (frac.length = 3) || decide (frac.length = 6)) &&
      frac.all Char.isDigit
  | _ => false

/-- The UTC-offset tail of an ISO time as CPython 3.7–3.10 parses it
(the sign having been consumed by the caller): `HH:MM`, `HH:MM:SS`, or
`HH:MM:SS.ffffff`, giving the value in whole seconds with the sub-second
part validated and dropped.  No per-component range check is performed —
CPython builds a normalising `timedelta` — and the caller enforces the
`timezone` constructor's strict one-day bound. -/
def parseOffsetTail (s : String) : Option ℕ :=
  match s.data with
  | [h1, h2, ':', m1, m2] =>
      if [h1, h2, m1, m2].all Char.isDigit then
        some (twoDigitVal h1 h2 * 3600 + twoDigitVal m1 m2 * 60)
      else none
  | [h1, h2, ':', m1, m2, ':', s1, s2] =>
      if [h1, h2, m1, m2, s1, s2].all Char.isDigit then
        some (twoDigitVal h1 h2 * 3600 + twoDigitVal m1 m2 * 60
          + twoDigitVal s1 s2)
      else none
  | [h1, h2, ':', m1, m2, ':', s1, s2, '.', f1, f2, f3, f4, f5, f6] =>
      if [h1, h2, m1, m2, s1, s2, f1, f2, f3, f4, f5, f6].all Char.isDigit then
        some (twoDigitVal h1 h2 * 3600 + twoDigitVal m1 m2 * 60
          + twoDigitVal s1 s2)
      else none
  | _ => none

/-- CPython `_parse_isoformat_time` (3.7–3.10): a time-of-day with an
optional offset, split off at the first `'-'` in the string — or, when
there is none, the first `'+'`.  Yields `some none` for a valid naive
time, `some (some off)` for a valid offset-aware time with `off` the
offset in seconds, and `none` for the `ValueError` of a malformed one. -/
def parseTimeOffset (tstr : String) : Option (Option ℤ) :=
  let cs := tstr.data
  let signSplit : Option (ℕ × Bool) :=
    match cs.findIdx? (fun c => c == '-') with
    | some i => some (i, true)
    | none =>
        match cs.findIdx? (fun c => c == '+') with
        | some j => some (j, false)
        | none => none
  match signSplit with
  | none => if validHMSF tstr then some none else none
  | some (i, neg) =>
      let timestr : String := ⟨cs.take i⟩
      let tzstr : String := ⟨cs.drop (i + 1)⟩
      if validHMSF timestr then
        match parseOffsetTail tzstr with
        | none => none
        | some secs =>
            if secs < 86400 then
              some (some (if neg then -(secs : ℤ) else (secs : ℤ)))
            else none
      else none

/-- CPython `datetime.fromisoformat` (3.7–3.10), reduced to the data the
program reads off the result (`.date()` and `.tzinfo`): the civil date,
and the UTC offset when one is present.  The accepted shape is
`YYYY-MM-DD`, optionally followed by one separator character — any
character at all — and a time `HH[:MM[:SS[.fff[fff]]]]` with an optional
`±HH:MM[:SS[.ffffff]]` offset. -/
def fromIsoDatetime (s : String) : Option (PyDate × Option ℤ) :=
  let cs := s.data
  if cs.length < 10 then none
  else
    match parseIsoDate ⟨cs.take 10⟩ with
    | none => none
    | some d =>
        if cs.length = 10 then some (d, none)
        else
          let tstr : List Char := cs.drop 11
          if tstr.isEmpty then none
          else (parseTimeOffset ⟨tstr⟩).map (fun off => (d, off))

/-! ## Display Formatter helpers (`client.py` 166–288) -/

/-- The fixed prefix list of `_clean_file_path` (client.py 171–175).
The Python literals are non-raw, so `"\\\\tvshows\\\\"` denotes a prefix
containing two consecutive backslash characters on each side, and
`"C:\\\\"` denotes `C:` followed by two backslashes. -/
def path_prefixes_to_remove : List String :=
  ["/tvshows/", "/movies/", "/downloads/", "/media/",
   "\\\\tvshows\\\\", "\\\\movies\\\\", "\\\\downloads\\\\", "\\\\media\\\\",
   "C:\\\\", "D:\\\\", "/home/", "/mnt/"]

/-- The `for prefix in ...: if ...: clean_path = clean_path[len(prefix):]; break`
loop of `_clean_file_path` (client.py 178–181). -/
def stripFirstPrefix (p : String) : List String → String
  | [] => p
  | pre :: rest =>
      if strStartsWith (strToLower p) (strToLower pre) then strDrop p pre.length
      else stripFirstPrefix p rest

/-- `NZBInfoClient._clean_file_path` (client.py 166–188).  Note that the
separator split matches `'/'` or the two-character sequence `'\\'` (two
backslashes), exactly as the non-raw Python literals do. -/
def cleanFilePath (file_path : String) : String :=
  if file_path = "" then "Unknown"
  else
    let clean_path := stripFirstPrefix file_path path_prefixes_to_remove
    if strContains clean_path '/' then
      (strSplitOn clean_path "/").getLastD ""
    else if pyInStr "\\\\" clean_path then
      (strSplitOn clean_path "\\\\").getLastD ""
    else clean_path

/-- Python `text.rsplit('.', 1)` under the guarantee that `'.' ∈ text`. -/
def rsplitDot (text : String) : String × String :=
  let parts := strSplitOn text "."
  (strIntercalate "." parts.dropLast, parts.getLastD "")

/-- `NZBInfoClient._smart_truncate` (client.py 190–202). -/
def smartTruncate (text : String) (max_length : ℤ := 35) : String :=
  if (text.length : ℤ) ≤ max_length then text
  else
    if strContains text '.' then
      let name := (rsplitDot text).1
      let ext := (rsplitDot text).2
      if (ext.length : ℤ) ≤ 4 then
        let available := max_length - ext.length - 4
        if available > 10 then pyTake name available ++ "..." ++ ext
        else pyTake text (max_length - 3) ++ "..."
      else pyTake text (max_length - 3) ++ "..."
    else pyTake text (max_length - 3) ++ "..."

/-- `NZBInfoClient._format_recent_files` (client.py 204–215). -/
def formatRecentFiles (files : List String) : String :=
  if files = [] then "No recent activity"
  else
    let recent_files := (files.take 2).map
      (fun file => smartTruncate (cleanFilePath file) 30)
    "Recent: " ++ strIntercalate " | " recent_files

/-- Python `x <= 0` on a float (`False` on `nan`). -/
def pfLe0 : PyF → Bool
  | .fin q => q ≤ 0
  | .inf => false
  | .ninf => true
  | .nan => false

/-- Python `x < c` on a float, against a finite bound (`False` on
`nan`). -/
def pfLt (x : PyF) (c : ℚ) : Bool :=
  match x with
  | .fin q => q < c
  | .inf => false
  | .ninf => true
  | .nan => false

/-- Float multiplication by a positive literal constant. -/
def pfScaleMul (x : PyF) (c : ℚ) : PyF :=
  match x with
  | .fin q => clampDouble (q * c)
  | .inf => .inf
  | .ninf => .ninf
  | .nan => .nan

/-- Float division by a positive literal constant. -/
def pfScaleDiv (x : PyF) (c : ℚ) : PyF :=
  match x with
  | .fin q => clampDouble (q / c)
  | .inf => .inf
  | .ninf => .ninf
  | .nan => .nan

/-- IEEE float division (the sign of a zero result is not tracked: the
program only ever compares the quotient against positive bounds). -/
def pfDiv (x y : PyF) : PyF :=
  match x, y with
  | .nan, _ => .nan
  | _, .nan => .nan
  | .fin a, .fin b =>
      if b = 0 then (if a = 0 then .nan else if 0 < a then .inf else .ninf)
      else clampDouble (a / b)
  | .fin _, .inf => .fin 0
  | .fin _, .ninf => .fin 0
  | .inf, .fin b => if 0 ≤ b then .inf else .ninf
  | .ninf, .fin b => if 0 ≤ b then .ninf else .inf
  | .inf, _ => .nan
  | .ninf, _ => .nan

/-- Python `f"{x:.0f}"` on a float (`"inf"`/`"-inf"`/`"nan"` on the
non-finite values, as CPython formats them). -/
def pfFormatF0 : PyF → String
  | .fin q => formatF0 q
  | .inf => "inf"
  | .ninf => "-inf"
  | .nan => "nan"

/-- Unit conversion to MB of `_calculate_eta` (client.py 237–247),
applied to an already upper-cased unit token. -/
def toMB (value : PyF) (unitU : String) : PyF :=
  if strStartsWith unitU "GB" then pfScaleMul value 1024
  else if strStartsWith unitU "KB" then pfScaleDiv value 1024
  else value

/-- `NZBInfoClient._calculate_eta` (client.py 217–264).  Every raise
point inside the source's `try` is caught by the `except` clause, which
returns `""`: the two `float()` calls (the `Option` matches), and the
`int()` calls of the hours branch, which raise `OverflowError` /
`ValueError` when `eta_minutes` is non-finite (the final `.fin` match —
a non-finite value reaches that branch exactly when both comparisons
against 1 and 60 are `False`). -/
def calculateEta (size_left speed : String) : String :=
  if size_left = "" ∨ size_left = "0 B" then ""
  else if speed = "" ∨ speed = "0" ∨ pyInStr "0 B/s" speed then ""
  else
    let size_parts := pySplitWs size_left
    let speed_parts := pySplitWs speed
    if size_parts.length ≠ 2 ∨ speed_parts.length ≠ 2 then ""
    else
      match pyFloat (size_parts.getD 0 "") with
      | none => ""
      | some size_value =>
        match pyFloat (speed_parts.getD 0 "") with
        | none => ""
        | some speed_value =>
          let size_unit := strToUpper (size_parts.getD 1 "")
          let speed_unit := strReplace (strToUpper (speed_parts.getD 1 "")) "/S" ""
          let size_mb := toMB size_value size_unit
          let speed_mb := toMB speed_value speed_unit
          if pfLe0 speed_mb then ""
          else
            let eta_minutes := pfScaleDiv (pfDiv size_mb speed_mb) 60
            if pfLt eta_minutes 1 then " (<1m)"
            else if pfLt eta_minutes 60 then
              " (" ++ pfFormatF0 eta_minutes ++ "m)"
            else
              match eta_minutes with
              | .fin q =>
                  let hours := ⌊q / 60⌋
                  let minutes := ⌊q - 60 * (⌊q / 60⌋ : ℚ)⌋
                  " (" ++ toString hours ++ "h" ++ pad2 minutes ++ "m)"
              | _ => ""

/-- The date-string parse performed by `_format_upcoming_date`
(client.py 269–272): `fromisoformat` after replacing `'Z'` when the string
contains `'T'`, plain `fromisoformat` otherwise; a `none` is the
`except`-caught parse failure. -/
def upcomingDateParse (date_str : String) : Option (PyDate × Option ℤ) :=
  if strContains date_str 'T' then
    fromIsoDatetime (strReplace date_str "Z" "+00:00")
  else fromIsoDatetime date_str

/-- `NZBInfoClient._format_upcoming_date` (client.py 266–288), against
the ambient `Clock`: for an offset-aware parse the current date is taken
in the string's own zone (`datetime.now(date_obj.tzinfo)`), otherwise in
the machine's local zone (`datetime.now()`). -/
def formatUpcomingDate (clk : Clock) (date_str : String) : String :=
  match upcomingDateParse date_str with
  | none => "Unknown"
  | some (date_obj, off) =>
      let now_date := nowDateIn clk (off.getD clk.localOffsetSec)
      let days_diff : ℤ := (toOrdinal date_obj : ℤ) - (toOrdinal now_date : ℤ)
      if days_diff = 0 then "Today"
      else if days_diff = 1 then "Tomorrow"
      else if days_diff < 7 then toString days_diff ++ "d"
      else strftimeBD date_obj

/-! ## Configuration (`config.py`) -/

/-- One entry of the `applications` table: every field is read through
`dict.get` with a default, so each is optional.  An absent entry and an
empty dict both behave as "no host" at every consuming site, and are both
modelled by `none` at the map level. -/
structure AppCfgEntry where
  host : Option String := none
  port : Option ℕ := none
  ssl : Option Bool := none
  url_base : Option String := none
  api_key : Option String := none
deriving Repr, DecidableEq

structure NZBInfoConfig where
  enabled_apps : List String := []
  applications : List (String × AppCfgEntry) := []
deriving Repr

/-- Association-list read with Python-dict key semantics (first match). -/
def assocGet {κ α : Type} [DecidableEq κ] : List (κ × α) → κ → Option α
  | [], _ => none
  | p :: rest, k => if p.1 = k then some p.2 else assocGet rest k

/-- Pointwise value update of an existing key (never inserts). -/
def assocSet {κ α : Type} [DecidableEq κ] (m : List (κ × α)) (k : κ) (f : α → α) :
    List (κ × α) :=
  m.map (fun p => if p.1 = k then (p.1, f p.2) else p)

/-- `NZBInfoConfig.get_enabled_apps` (config.py 91–93). -/
def getEnabledApps (c : NZBInfoConfig) : List String :=
  c.enabled_apps

/-- `NZBInfoConfig.get_app_config` (config.py 99–101); `none` stands for
the empty dict returned for an unknown application. -/
def getAppConfig (c : NZBInfoConfig) (app_name : String) : Option AppCfgEntry :=
  assocGet c.applications app_name

/-- The test `not app_config or "host" not in app_config` used by the
client (client.py 320); `true` means the check passes (host present). -/
def cfgHostPresent (c : NZBInfoConfig) (app_name : String) : Bool :=
  match getAppConfig c app_name with
  | none => false
  | some e => e.host.isSome

/-- The `APP_DEFAULTS` port column (config.py 19–28). -/
def appDefaultPort (app_name : String) : Option ℕ :=
  if app_name = "sabnzbd" then some 8080
  else if app_name = "nzbget" then some 6789
  else if app_name = "sonarr" then some 8989
  else if app_name = "radarr" then some 7878
  else if app_name = "lidarr" then some 8686
  else if app_name = "readarr" then some 8787
  else if app_name = "bazarr" then some 6767
  else if app_name = "overseerr" then some 5055
  else none

/-- `NZBInfoConfig.get_app_url` (config.py 112–127). -/
def getAppUrl (c : NZBInfoConfig) (app_name : String) : String :=
  match getAppConfig c app_name with
  | none => ""
  | some app_config =>
      match app_config.host with
      | none => ""
      | some host =>
          let protocol := if app_config.ssl.getD false then "https" else "http"
          let port := app_config.port.getD ((appDefaultPort app_name).getD 80)
          let url_base := pyStripSlash (app_config.url_base.getD "")
          let url := protocol ++ "://" ++ host ++ ":" ++ toString port
          if url_base ≠ "" then url ++ "/" ++ url_base else url

/-- `NZBInfoConfig.get_app_api_key` (config.py 129–132). -/
def getAppApiKey (c : NZBInfoConfig) (app_name : String) : String :=
  ((getAppConfig c app_name).bind (fun e => e.api_key)).getD ""

/-! ## Status records and the HTTP oracle environment -/

/-- Values stored in `AppStatus.raw_data` (an opaque diagnostic payload). -/
inductive RVal where
  | nat (n : ℕ)
  | str (s : String)
  | rat (q : ℚ)
deriving Repr, DecidableEq

/-- `AppStatus` (client.py 24–35). -/
structure AppStatus where
  app_name : String
  is_online : Bool
  title : String
  primary_info : String
  secondary_info : String
  last_updated : ℚ
  raw_data : List (String × RVal)
deriving Repr, DecidableEq

/-- `AppStatus.__init__` (client.py 27–35); `now` is the ambient
`time.time()`. -/
def AppStatus.init (app_name : String) (now : ℚ) : AppStatus :=
  { app_name := app_name
    is_online := false
    title := pyTitle app_name
    primary_info := "Offline"
    secondary_info := "Not connected"
    last_updated := now
    raw_data := [] }

/-- Outcome of one `session.get`/`session.post` whose body, when the
status is read as 200, is decoded by `await response.json()`:
either the call raises, or it yields a status code and a body whose JSON
decoding yields `α` or raises. -/
inductive HCall (α : Type) where
  | exnAt (msg : String)
  | resp (status : ℕ) (body : Except String α)

/-- Outcome of the Bazarr auth-probe call, which reads the status code and
the `content-type` response header, never the body. -/
inductive PCall where
  | exnAt (msg : String)
  | resp (status : ℕ) (contentType : String)

/- Typed shapes of the JSON bodies each endpoint can return.  A field the
source reads via `dict.get(key, default)` is an `Option`; a body the
source checks with `isinstance(..., list/dict)` is an `Option` at the top
level (`none` = a JSON value of a different shape). -/

structure SabSlot where
  filename : Option String := none
deriving Repr

structure SabQueue where
  slots : Option (List SabSlot) := none
  speed : Option String := none
  sizeleft : Option String := none
deriving Repr

structure SabQueueData where
  queue : Option SabQueue := none
deriving Repr

structure SabHistSlot where
  name : Option String := none
deriving Repr

structure SabHist where
  slots : Option (List SabHistSlot) := none
deriving Repr

structure SabHistData where
  history : Option SabHist := none
deriving Repr

structure NzbResult where
  DownloadRate : Option ℚ := none
  RemainingSizeMB : Option ℚ := none
deriving Repr

structure NzbStatusData where
  result : Option NzbResult := none
deriving Repr

structure NzbHistItem where
  Name : Option String := none
deriving Repr

structure NzbHistData where
  result : Option (List NzbHistItem) := none
deriving Repr

structure CalSeries where
  title : Option String := none
  seriesTitle : Option String := none
deriving Repr

structure EpisodeFile where
  path : Option String := none
deriving Repr

structure CalArtist where
  artistName : Option String := none
deriving Repr

structure CalAuthor where
  authorName : Option String := none
deriving Repr

structure CalItem where
  monitored : Option Bool := none
  hasFile : Option Bool := none
  series : Option CalSeries := none
  seriesTitle : Option String := none
  seriesName : Option String := none
  episodeFile : Option EpisodeFile := none
  seasonNumber : Option ℤ := none
  episodeNumber : Option ℤ := none
  airDate : Option String := none
  title : Option String := none
  year : Option ℤ := none
  inCinemas : Option String := none
  artist : Option CalArtist := none
  author : Option CalAuthor := none
  releaseDate : Option String := none
deriving Repr

structure HistRecord where
  sourceTitle : Option String := none
deriving Repr

structure HistData where
  records : Option (List HistRecord) := none
deriving Repr

structure BzEpItem where
  seriesTitle : Option String := none
  language : Option String := none
deriving Repr

structure BzEpData where
  data : Option (List BzEpItem) := none
deriving Repr

structure BzMovieItem where
  title : Option String := none
  language : Option String := none
deriving Repr

structure BzMovieData where
  data : Option (List BzMovieItem) := none
deriving Repr

structure OvMedia where
  title : Option String := none
  releaseDate : Option String := none
  name : Option String := none
deriving Repr

structure OvRequest where
  status : Option ℤ := none
  type : Option String := none
  media : Option OvMedia := none
deriving Repr

structure OvRequestsData where
  results : Option (List OvRequest) := none
deriving Repr

/-- The ambient world of one polling cycle: `time.time()`, the current
instant for `datetime.now(...)`, and one oracle per HTTP call site,
keyed by the URL (and headers, where the source sends them) the source
builds. -/
structure AppEnv where
  now : ℚ := 0
  clock : Clock := {}
  sabQueue : String → HCall SabQueueData := fun _ => .exnAt ""
  sabHistory : String → HCall SabHistData := fun _ => .exnAt ""
  nzbStatus : String → HCall NzbStatusData := fun _ => .exnAt ""
  nzbHistory : String → HCall NzbHistData := fun _ => .exnAt ""
  calendar : String → List (String × String) → HCall (Option (List CalItem)) :=
    fun _ _ => .exnAt ""
  history : String → List (String × String) → HCall (Option HistData) :=
    fun _ _ => .exnAt ""
  bzProbe : String → List (String × String) → PCall := fun _ _ => .exnAt ""
  bzEpisodes : String → List (String × String) → HCall BzEpData :=
    fun _ _ => .exnAt ""
  bzMovies : String → List (String × String) → HCall BzMovieData :=
    fun _ _ => .exnAt ""
  ovRequests : String → List (String × String) → HCall OvRequestsData :=
    fun _ _ => .exnAt ""

/-! ## Per-backend adapters (`client.py` 345–736)

Each adapter is `AppStatus → Bool × AppStatus`: the Python method mutates
the passed `AppStatus` object and returns a `bool`.  The body of each
source-level `try` that can observe an uncaught raise is a separate
`Except`-valued definition whose error value carries the exception text
and the state at the raise point. -/

/-- The inner `try` of `_update_sabnzbd_2row` around the history call
(client.py 377–388): its only write is to `secondary_info`, and every
raise from the call or its JSON decode is caught here. -/
def sabHistorySection (c : HCall SabHistData) (st : AppStatus) : AppStatus :=
  match c with
  | .exnAt _ => { st with secondary_info := "No recent activity" }
  | .resp hstc hbody =>
    if hstc = 200 then
      match hbody with
      | .error _ => { st with secondary_info := "No recent activity" }
      | .ok hist_data =>
        let slots : List SabHistSlot := (hist_data.history.getD {}).slots.getD []
        let recent_files := slots.map
          (fun (slot : SabHistSlot) => slot.name.getD "Unknown")
        { st with secondary_info := formatRecentFiles recent_files }
    else { st with secondary_info := "No recent activity" }

/-- The `try` block of `_update_sabnzbd_2row` (client.py 353–396). -/
def sabTryBody (env : AppEnv) (st : AppStatus) (queue_url history_url : String) :
    Except (String × AppStatus) (Bool × AppStatus) :=
  match env.sabQueue queue_url with
  | .exnAt m => .error (m, st)
  | .resp stc body =>
    if stc = 200 then
      match body with
      | .error m => .error (m, st)
      | .ok queue_data =>
        let queue := queue_data.queue.getD {}
        let active_jobs := queue.slots.getD []
        let speed := queue.speed.getD "0 B/s"
        let size_left := queue.sizeleft.getD "0 B"
        let st := { st with is_online := true, title := "SABnzbd" }
        let st :=
          match active_jobs with
          | current_job :: _ =>
            let filename := current_job.filename.getD "Unknown"
            let display_name := smartTruncate filename 20
            let eta := calculateEta size_left speed
            { st with primary_info :=
                "Downloading: " ++ display_name ++ " @ " ++ speed ++ eta }
          | [] => { st with primary_info := "Queue idle" }
        let st := sabHistorySection (env.sabHistory history_url) st
        let st := { st with
          raw_data := [("queue_count", .nat active_jobs.length), ("speed", .str speed)],
          last_updated := env.now }
        .ok (true, st)
    else
      .ok (false, { st with is_online := false, primary_info := "API Error",
                            secondary_info := "HTTP " ++ toString stc })

/-- `NZBInfoClient._update_sabnzbd_2row` (client.py 345–404). -/
def updateSabnzbd2Row (cfg : NZBInfoConfig) (env : AppEnv) (st : AppStatus) :
    Bool × AppStatus :=
  let base_url := getAppUrl cfg st.app_name
  let api_key := getAppApiKey cfg st.app_name
  let queue_url := base_url ++ "/api?mode=queue&apikey=" ++ api_key ++ "&output=json"
  let history_url :=
    base_url ++ "/api?mode=history&apikey=" ++ api_key ++ "&output=json&limit=2"
  match sabTryBody env st queue_url history_url with
  | .ok r => r
  | .error (ex, stE) =>
      (false, { stE with is_online := false, primary_info := "Connection Error",
                         secondary_info := pyTake ex 50 })

/-- The inner `try` of `_update_nzbget_2row` around the history RPC
(client.py 441–453): its only write is to `secondary_info`, and every
raise from the call or its JSON decode is caught here. -/
def nzbHistorySection (c : HCall NzbHistData) (st : AppStatus) : AppStatus :=
  match c with
  | .exnAt _ => { st with secondary_info := "No recent activity" }
  | .resp hstc hbody =>
    if hstc = 200 then
      match hbody with
      | .error _ => { st with secondary_info := "No recent activity" }
      | .ok hist_data =>
        let history : List NzbHistItem := hist_data.result.getD []
        let recent_files :=
          (history.take 2).map (fun (item : NzbHistItem) => item.Name.getD "Unknown")
        { st with secondary_info := formatRecentFiles recent_files }
    else { st with secondary_info := "No recent activity" }

/-- The `try` block of `_update_nzbget_2row` (client.py 410–461); both
JSON-RPC POSTs go to `base_url ++ "/jsonrpc"`, distinguished by their
payloads (`method=status` and `method=history`), hence the two oracles. -/
def nzbTryBody (env : AppEnv) (st : AppStatus) (base_url : String) :
    Except (String × AppStatus) (Bool × AppStatus) :=
  match env.nzbStatus (base_url ++ "/jsonrpc") with
  | .exnAt m => .error (m, st)
  | .resp stc body =>
    if stc = 200 then
      match body with
      | .error m => .error (m, st)
      | .ok data =>
        let result := data.result.getD {}
        let download_rate := result.DownloadRate.getD 0
        let remaining_size := result.RemainingSizeMB.getD 0
        let st := { st with is_online := true, title := "NZBget" }
        let st :=
          if download_rate > 0 then
            let speed_mb := download_rate / 1024 / 1024
            let eta :=
              if remaining_size > 0 ∧ speed_mb > 0 then
                let eta_minutes := remaining_size / speed_mb / 60
                if eta_minutes < 60 then " (" ++ formatF0 eta_minutes ++ "m)"
                else
                  let hours := ⌊eta_minutes / 60⌋
                  let minutes := ⌊eta_minutes - 60 * (⌊eta_minutes / 60⌋ : ℚ)⌋
                  " (" ++ toString hours ++ "h" ++ pad2 minutes ++ "m)"
              else ""
            { st with primary_info :=
                "Downloading @ " ++ formatF1 speed_mb ++ " MB/s" ++ eta }
          else { st with primary_info := "Queue idle" }
        let st := nzbHistorySection (env.nzbHistory (base_url ++ "/jsonrpc")) st
        let st := { st with
          raw_data := [("download_rate", .rat download_rate),
                       ("remaining_mb", .rat remaining_size)],
          last_updated := env.now }
        .ok (true, st)
    else
      .ok (false, { st with is_online := false, primary_info := "API Error",
                            secondary_info := "HTTP " ++ toString stc })

/-- `NZBInfoClient._update_nzbget_2row` (client.py 406–469). -/
def updateNzbget2Row (cfg : NZBInfoConfig) (env : AppEnv) (st : AppStatus) :
    Bool × AppStatus :=
  let base_url := getAppUrl cfg st.app_name
  match nzbTryBody env st base_url with
  | .ok r => r
  | .error (ex, stE) =>
      (false, { stE with is_online := false, primary_info := "Connection Error",
                         secondary_info := pyTake ex 50 })

/-- A Python `a or b or ... or "default"` chain over optional strings
(`None` and `""` are falsy). -/
def orStr : List (Option String) → String → String
  | [], dflt => dflt
  | some s :: rest, dflt => if s ≠ "" then s else orStr rest dflt
  | none :: rest, dflt => orStr rest dflt

/-- `NZBInfoClient._get_upcoming_content` (client.py 497–570): mutates
only `primary_info`; every raise inside is caught by its own
`except` (line 568–570). -/
def upcomingSection (c : HCall (Option (List CalItem))) (clk : Clock)
    (st : AppStatus) : AppStatus :=
  match c with
  | .exnAt _ => { st with primary_info := "No upcoming data" }
  | .resp stc body =>
    if stc = 200 then
      match body with
      | .error _ => { st with primary_info := "No upcoming data" }
      | .ok calendar_data =>
        match calendar_data with
        | some items =>
          if ¬ items.isEmpty then
            match items.find? (fun item =>
                (item.monitored.getD false) && !(item.hasFile.getD false)) with
            | some upcoming =>
              if st.app_name = "sonarr" then
                let series := upcoming.series.getD {}
                let series_title := orStr [series.title, series.seriesTitle,
                  upcoming.seriesTitle, upcoming.seriesName] "Unknown Series"
                let series_title :=
                  if series_title = "Unknown Series" ∧ upcoming.episodeFile.isSome then
                    let file_path := (upcoming.episodeFile.getD {}).path.getD ""
                    if file_path ≠ "" then
                      let path_parts := strSplitOn file_path "/"
                      if path_parts.length ≥ 3 then
                        path_parts.getD (path_parts.length - 3) ""
                      else series_title
                    else series_title
                  else series_title
                let season := upcoming.seasonNumber.getD 0
                let episode := upcoming.episodeNumber.getD 0
                let air_date := formatUpcomingDate clk (upcoming.airDate.getD "")
                let title := smartTruncate
                  (series_title ++ " S" ++ pad2 season ++ "E" ++ pad2 episode) 25
                { st with primary_info := "Next: " ++ title ++ " (" ++ air_date ++ ")" }
              else if st.app_name = "radarr" then
                let movie_title := upcoming.title.getD "Unknown"
                let year := match upcoming.year with
                  | some y => toString y
                  | none => ""
                let release_date :=
                  formatUpcomingDate clk (upcoming.inCinemas.getD "")
                let title := smartTruncate (movie_title ++ " (" ++ year ++ ")") 25
                { st with primary_info :=
                    "Next: " ++ title ++ " (" ++ release_date ++ ")" }
              else if st.app_name = "lidarr" then
                let artist := (upcoming.artist.getD {}).artistName.getD "Unknown Artist"
                let album_title := upcoming.title.getD "Unknown Album"
                let release_date :=
                  formatUpcomingDate clk (upcoming.releaseDate.getD "")
                let title := smartTruncate (artist ++ " - " ++ album_title) 25
                { st with primary_info :=
                    "Next: " ++ title ++ " (" ++ release_date ++ ")" }
              else if st.app_name = "readarr" then
                let author := (upcoming.author.getD {}).authorName.getD "Unknown Author"
                let book_title := upcoming.title.getD "Unknown Book"
                let release_date :=
                  formatUpcomingDate clk (upcoming.releaseDate.getD "")
                let title := smartTruncate (author ++ " - " ++ book_title) 25
                { st with primary_info :=
                    "Next: " ++ title ++ " (" ++ release_date ++ ")" }
              else st
            | none => { st with primary_info := "No upcoming releases" }
          else { st with primary_info := "No upcoming releases" }
        | none => { st with primary_info := "No upcoming releases" }
    else { st with primary_info := "Calendar unavailable" }

/-- `NZBInfoClient._get_upcoming_content` (client.py 497–570): builds the
calendar URL, issues the call, and hands the outcome to
`upcomingSection`, which mutates only `primary_info`; every raise from
the call or its JSON decode is caught by the section’s except branch. -/
def getUpcomingContent (clk : Clock)
    (cal : String → List (String × String) → HCall (Option (List CalItem)))
    (st : AppStatus) (base_url api_version : String)
    (headers : List (String × String)) : AppStatus :=
  let today := strftimeYMD (nowDateIn clk clk.localOffsetSec)
  let next_week := strftimeYMD (addDays (nowDateIn clk clk.localOffsetSec) 7)
  let calendar_url := base_url ++ "/api/" ++ api_version ++ "/calendar?start="
    ++ today ++ "&end=" ++ next_week ++ "&includeEpisode=true&includeSeries=true"
  upcomingSection (cal calendar_url headers) clk st

/-- The body of `_get_recent_activity` (client.py 572–599) applied to the
outcome of its history call: mutates only `secondary_info`; every raise
is caught by the except branch (`.exnAt`). -/
def recentSection (c : HCall (Option HistData)) (st : AppStatus) : AppStatus :=
  match c with
  | .exnAt _ => { st with secondary_info := "No recent activity" }
  | .resp stc body =>
    if stc = 200 then
      match body with
      | .error _ => { st with secondary_info := "No recent activity" }
      | .ok hist_data =>
        let records := match hist_data with
          | some hd => hd.records.getD []
          | none => []
        if ¬ records.isEmpty then
          let recent_files := (records.take 2).foldl (fun acc record =>
            let source := record.sourceTitle.getD "Unknown"
            if source ≠ "" ∧ source ≠ "Unknown" then acc ++ [cleanFilePath source]
            else acc) []
          { st with secondary_info := formatRecentFiles recent_files }
        else { st with secondary_info := "No recent activity" }
    else { st with secondary_info := "History unavailable" }

/-- `NZBInfoClient._get_recent_activity` (client.py 572–599). -/
def getRecentActivity
    (hist : String → List (String × String) → HCall (Option HistData))
    (st : AppStatus) (base_url api_version : String)
    (headers : List (String × String)) : AppStatus :=
  let history_url := base_url ++ "/api/" ++ api_version ++ "/history?pageSize=2"
  recentSection (hist history_url headers) st

/-- `NZBInfoClient._update_media_manager_2row` (client.py 471–495).
Both helpers catch every raise from their HTTP calls internally, so the
body of the source's `try` is total and its `except` clause
(lines 489–494) is unreachable. -/
def updateMediaManager2Row (cfg : NZBInfoConfig) (env : AppEnv) (st : AppStatus) :
    Bool × AppStatus :=
  let base_url := getAppUrl cfg st.app_name
  let api_key := getAppApiKey cfg st.app_name
  let api_version :=
    if st.app_name = "sonarr" ∨ st.app_name = "radarr" then "v3" else "v1"
  let headers := [("X-Api-Key", api_key)]
  let st := { st with is_online := true, title := pyTitle st.app_name }
  let st := getUpcomingContent env.clock env.calendar st base_url api_version headers
  let st := getRecentActivity env.history st base_url api_version headers
  let st := { st with last_updated := env.now }
  (true, st)

/-- The auth-probe section of `_update_bazarr_2row` (client.py 611–629):
`some b` models an early `return b`, `none` falling through. -/
def bzProbeSection (env : AppEnv) (st : AppStatus) (base_url : String)
    (headers : List (String × String)) : Option Bool × AppStatus :=
  match env.bzProbe (base_url ++ "/api/system/status") headers with
  | .exnAt e =>
      (some false, { st with is_online := false, primary_info := "Connection Error",
                             secondary_info := pyTake e 50 })
  | .resp stc ctype =>
    if stc ≠ 200 then
      (some false, { st with is_online := false, primary_info := "Connection Error",
                             secondary_info := "HTTP " ++ toString stc })
    else if pyInStr "text/html" ctype then
      (some false, { st with primary_info := "Authentication Error",
                             secondary_info := "Check API key configuration" })
    else (none, st)

/-- The episodes-history loop of `_update_bazarr_2row` (client.py 640–647):
appends one formatted entry per item, with no cap. -/
def bzEpisodesFmt (items : List BzEpItem) : List String :=
  items.map (fun item =>
    let series_title := item.seriesTitle.getD "Unknown"
    let language := item.language.getD ""
    if language ≠ "" then series_title ++ " (" ++ language ++ ")" else series_title)

/-- The movies-history loop of `_update_bazarr_2row` (client.py 659–669):
appends entries, breaking once the accumulated list reaches 2. -/
def bzMoviesLoop (acc : List String) : List BzMovieItem → List String
  | [] => acc
  | item :: rest =>
      let movie_title := item.title.getD "Unknown"
      let language := item.language.getD ""
      let file_info :=
        if language ≠ "" then movie_title ++ " (" ++ language ++ ")" else movie_title
      let acc' := acc ++ [file_info]
      if acc'.length ≥ 2 then acc' else bzMoviesLoop acc' rest

/-- `NZBInfoClient._update_bazarr_2row` (client.py 601–682). -/
def updateBazarr2Row (cfg : NZBInfoConfig) (env : AppEnv) (st : AppStatus) :
    Bool × AppStatus :=
  let base_url := getAppUrl cfg st.app_name
  let api_key := getAppApiKey cfg st.app_name
  let headers := [("X-API-KEY", api_key)]
  let st := { st with is_online := true, title := "Bazarr" }
  match bzProbeSection env st base_url headers with
  | (some b, st) => (b, st)
  | (none, st) =>
    let recent_downloads : List String :=
      match env.bzEpisodes (base_url ++ "/api/episodes/history?length=3") headers with
      | .exnAt _ => []
      | .resp stc body =>
        if stc = 200 then
          match body with
          | .error _ => []
          | .ok episodes_data => bzEpisodesFmt (episodes_data.data.getD [])
        else []
    let recent_downloads :=
      if recent_downloads.length < 2 then
        match env.bzMovies (base_url ++ "/api/movies/history?length=3") headers with
        | .exnAt _ => recent_downloads
        | .resp stc body =>
          if stc = 200 then
            match body with
            | .error _ => recent_downloads
            | .ok movies_data => bzMoviesLoop recent_downloads (movies_data.data.getD [])
          else recent_downloads
      else recent_downloads
    let st :=
      if recent_downloads ≠ [] then
        { st with primary_info := "Subtitle downloads active" }
      else { st with primary_info := "Subtitle manager idle" }
    let st := { st with secondary_info :=
      if recent_downloads ≠ [] then formatRecentFiles recent_downloads
      else "No recent downloads" }
    let st := { st with raw_data := [("recent_count", .nat recent_downloads.length)],
                        last_updated := env.now }
    (true, st)

/-- The `try` block of `_update_overseerr_2row` (client.py 692–728). -/
def ovTryBody (env : AppEnv) (st : AppStatus) (requests_url : String)
    (headers : List (String × String)) :
    Except (String × AppStatus) (Bool × AppStatus) :=
  match env.ovRequests requests_url headers with
  | .exnAt m => .error (m, st)
  | .resp stc body =>
    if stc = 200 then
      match body with
      | .error m => .error (m, st)
      | .ok requests_data =>
        let st := { st with is_online := true, title := "Overseerr" }
        let all_requests := requests_data.results.getD []
        let pending_requests := all_requests.filter (fun r => r.status == some 1)
        let st :=
          if ¬ pending_requests.isEmpty then
            { st with primary_info := toString pending_requests.length ++ " pending requests" }
          else { st with primary_info := "No pending requests" }
        let st :=
          if ¬ all_requests.isEmpty then
            let recent_files := (all_requests.take 2).map (fun request =>
              if request.type == some "movie" then
                let media := request.media.getD {}
                (media.title.getD "Unknown") ++ " ("
                  ++ pyTake (media.releaseDate.getD "") 4 ++ ")"
              else ((request.media.getD {}).name.getD "Unknown"))
            { st with secondary_info := formatRecentFiles recent_files }
          else { st with secondary_info := "No recent requests" }
        let st := { st with raw_data := [("pending_count", .nat pending_requests.length)],
                            last_updated := env.now }
        .ok (true, st)
    else
      .ok (false, { st with is_online := false, primary_info := "API Error",
                            secondary_info := "HTTP " ++ toString stc })

/-- `NZBInfoClient._update_overseerr_2row` (client.py 684–736). -/
def updateOverseerr2Row (cfg : NZBInfoConfig) (env : AppEnv) (st : AppStatus) :
    Bool × AppStatus :=
  let base_url := getAppUrl cfg st.app_name
  let api_key := getAppApiKey cfg st.app_name
  let headers := [("X-API-Key", api_key)]
  let requests_url := base_url ++ "/api/v1/request?take=5&sort=added"
  match ovTryBody env st requests_url headers with
  | .ok r => r
  | .error (ex, stE) =>
      (false, { stE with is_online := false, primary_info := "Connection Error",
                         secondary_info := pyTake ex 50 })

/-! ## The Status Aggregator (`client.py` 290–343, 738–744) -/

/-- `NZBInfoClient._update_app_status` (client.py 312–343).  `none` is the
implicit Python `None` returned when `app_name` matches no dispatch
branch.  In this model every adapter is a total function — each catches
every raise from its HTTP calls — so the outer `except` clause of the
source (lines 337–343) is unreachable and the function is total: this is
the "never raises past the adapter boundary" part of the design. -/
def updateAppStatus (cfg : NZBInfoConfig) (env : AppEnv) (app_name : String)
    (m : List (String × AppStatus)) : Option Bool × List (String × AppStatus) :=
  match assocGet m app_name with
  | none => (some false, m)
  | some status =>
    if ¬ cfgHostPresent cfg app_name then
      (some false, assocSet m app_name (fun _ =>
        { status with is_online := false, primary_info := "Not configured",
                      secondary_info := "Missing configuration" }))
    else
      let runWith := fun (f : AppStatus → Bool × AppStatus) =>
        let r := f status
        ((some r.1 : Option Bool), assocSet m app_name (fun _ => r.2))
      if app_name = "sabnzbd" then runWith (updateSabnzbd2Row cfg env)
      else if app_name = "nzbget" then runWith (updateNzbget2Row cfg env)
      else if app_name = "sonarr" ∨ app_name = "radarr" ∨ app_name = "lidarr"
          ∨ app_name = "readarr" then
        runWith (updateMediaManager2Row cfg env)
      else if app_name = "bazarr" then runWith (updateBazarr2Row cfg env)
      else if app_name = "overseerr" then runWith (updateOverseerr2Row cfg env)
      else (none, m)

/-- `NZBInfoClient.update_all_statuses` (client.py 290–310).  The
concurrent fan-out is serialised in task-creation order: each task reads
and writes only its own map slot, so the serialisation is
observation-equivalent to the concurrent run.  `asyncio.gather` with
`return_exceptions=True` never propagates a failure, and `success_count`
counts exactly the tasks that returned `True`.  `sessionSome` models
`self._session is not None`. -/
def updateAllStatuses (cfg : NZBInfoConfig) (envs : String → AppEnv)
    (sessionSome : Bool) (m : List (String × AppStatus)) :
    Bool × List (String × AppStatus) :=
  if ¬ sessionSome then (false, m)
  else
    let r := (getEnabledApps cfg).foldl
      (fun (acc : ℕ × List (String × AppStatus)) a =>
        let r := updateAppStatus cfg (envs a) a acc.2
        (acc.1 + (if r.1 = some true then 1 else 0), r.2))
      (0, m)
    (r.1 > 0, r.2)

/-! ## An object-store model for `get_all_statuses` (client.py 742–744)

`get_all_statuses` returns `self._app_statuses.copy()` — a *shallow* dict
copy.  Aliasing claims about it need object identity, so here dicts and
`AppStatus` objects live in an explicit store: a dict object is a list of
(key, object-id) entries, and polling mutates `AppStatus` objects in
place (the source only ever assigns attributes of the object it looked
up; no poll path writes a dict entry). -/

structure PyStore where
  dicts : List (ℕ × List (String × ℕ))
  objs : List (ℕ × AppStatus)
  nextId : ℕ

/-- The entry list of dict object `d` (empty for a dangling id). -/
def lookupDict (s : PyStore) (d : ℕ) : List (String × ℕ) :=
  (assocGet s.dicts d).getD []

def lookupObj (s : PyStore) (o : ℕ) : Option AppStatus :=
  assocGet s.objs o

/-- In-place mutation of `AppStatus` object `o`. -/
def setObj (s : PyStore) (o : ℕ) (v : AppStatus) : PyStore :=
  { s with objs := assocSet s.objs o (fun _ => v) }

/-- `NZBInfoClient.get_all_statuses` (client.py 742–744):
`self._app_statuses.copy()` allocates a fresh dict object holding the
same entries (the same `AppStatus` object ids — a shallow copy) and
returns it. -/
def getAllStatusesHeap (s : PyStore) (internal : ℕ) : PyStore × ℕ :=
  ({ s with dicts := s.dicts ++ [(s.nextId, lookupDict s internal)],
            nextId := s.nextId + 1 },
   s.nextId)

/-- A mutation a caller can perform on a dict it holds: `d[k] = v`
(insert-or-replace) or `del d[k]`. -/
inductive DictOp where
  | setItem (k : String) (v : ℕ)
  | delItem (k : String)

/-- Effect of one `DictOp` on an entry list. -/
def dictOpFn (op : DictOp) (entries : List (String × ℕ)) : List (String × ℕ) :=
  match op with
  | .setItem k v =>
      if (assocGet entries k).isSome then assocSet entries k (fun _ => v)
      else entries ++ [(k, v)]
  | .delItem k => entries.filter (fun p => p.1 ≠ k)

def applyDictOp (s : PyStore) (d : ℕ) (op : DictOp) : PyStore :=
  { s with dicts := s.dicts.map (fun p => if p.1 = d then (p.1, dictOpFn op p.2) else p) }

def applyDictOps (s : PyStore) (d : ℕ) : List DictOp → PyStore
  | [] => s
  | op :: rest => applyDictOps (applyDictOp s d op) d rest

/-- `_update_app_status` read against the store: it looks its key up in
the *internal* dict and then mutates only the `AppStatus` object found
there (every write in client.py 312–343 and in the adapters is an
attribute assignment on that object); no branch writes any dict entry. -/
def updateAppStatusHeap (cfg : NZBInfoConfig) (env : AppEnv) (a : String)
    (internal : ℕ) (s : PyStore) : PyStore :=
  match assocGet (lookupDict s internal) a with
  | none => s
  | some objId =>
    match lookupObj s objId with
    | none => s
    | some status =>
      if ¬ cfgHostPresent cfg a then
        setObj s objId
          { status with is_online := false, primary_info := "Not configured",
                        secondary_info := "Missing configuration" }
      else if a = "sabnzbd" then setObj s objId (updateSabnzbd2Row cfg env status).2
      else if a = "nzbget" then setObj s objId (updateNzbget2Row cfg env status).2
      else if a = "sonarr" ∨ a = "radarr" ∨ a = "lidarr" ∨ a = "readarr" then
        setObj s objId (updateMediaManager2Row cfg env status).2
      else if a = "bazarr" then setObj s objId (updateBazarr2Row cfg env status).2
      else if a = "overseerr" then setObj s objId (updateOverseerr2Row cfg env status).2
      else s

/-- One `update_all_statuses` cycle against the store. -/
def pollAllHeap (cfg : NZBInfoConfig) (envs : String → AppEnv) (internal : ℕ)
    (s : PyStore) : PyStore :=
  (getEnabledApps cfg).foldl
    (fun acc a => updateAppStatusHeap cfg (envs a) a internal acc) s

/-! ## Shared concrete fixtures -/

/-- A configuration with every backend kind enabled and given a host and
API key (the post-setup state the claims assume). -/
def cfgAll : NZBInfoConfig :=
  { enabled_apps := ["sabnzbd", "nzbget", "sonarr", "radarr", "lidarr",
                     "readarr", "bazarr", "overseerr"],
    applications :=
      [("sabnzbd", { host := some "nas.local", api_key := some "k1" }),
       ("nzbget", { host := some "nas.local", api_key := some "k2" }),
       ("sonarr", { host := some "nas.local", api_key := some "k3" }),
       ("radarr", { host := some "nas.local", api_key := some "k4" }),
       ("lidarr", { host := some "nas.local", api_key := some "k5" }),
       ("readarr", { host := some "nas.local", api_key := some "k6" }),
       ("bazarr", { host := some "nas.local", api_key := some "k7" }),
       ("overseerr", { host := some "nas.local", api_key := some "k8" })] }


/-! ## C7 — path cleaning and back-slash separators

The claim: `_clean_file_path` strips at most one known root prefix
(case-insensitively) and then returns the last path segment whether the
path uses forward-slash or back-slash separators.  The claim is right
about the function's evident intent (its docstring is "Extract clean
filename from full path", and its prefix list targets Windows drive
roots), but the code is wrong: the separator and prefix literals are
written `'\\\\'` inside *non-raw* Python strings, so they denote two
consecutive backslashes, and an ordinary single-backslash Windows path is
returned whole. -/

/-- **C7** (code bug): on the single-backslash path `C:\Users\file.mkv`
the source returns the input unchanged instead of the last path segment
`file.mkv`; its `"C:\\"`-intended prefix (actually `C:` plus two
backslashes) does not match either.  The forward-slash case works as
claimed. -/
theorem c7_clean_file_path_backslash_bug :
    cleanFilePath "C:\\Users\\file.mkv" = "C:\\Users\\file.mkv" ∧
    cleanFilePath "C:\\Users\\file.mkv" ≠ "file.mkv" ∧
    cleanFilePath "/media/Show/file.mkv" = "file.mkv" := by
  refine ⟨by decide, by decide, by decide⟩

/-! ## C9 — downloader-A display scenario -/

/-- The queue body of the C9 scenario: one active job
`Show.S01E02.mkv`, speed `5 MB/s`, sizeleft `300 MB`. -/
def c9QueueData : SabQueueData :=
  { queue := some { slots := some [{ filename := some "Show.S01E02.mkv" }],
                    speed := some "5 MB/s",
                    sizeleft := some "300 MB" } }

/-- The C9 environment: the queue call responds 200 with `c9QueueData`;
the history call responds 200 with an empty slot list. -/
def c9Env : AppEnv :=
  { sabQueue := fun _ => .resp 200 (.ok c9QueueData),
    sabHistory := fun _ => .resp 200 (.ok { history := some { slots := some [] } }) }

/-- The C9 empty-queue environment. -/
def c9EnvEmpty : AppEnv :=
  { sabQueue := fun _ => .resp 200 (.ok { queue := some {} }),
    sabHistory := fun _ => .resp 200 (.ok { history := some { slots := some [] } }) }

/-- **C9** (confirmed): for the given queue response the SABnzbd adapter
renders exactly `"Downloading: Show.S01E02.mkv @ 5 MB/s (1m)"` (the name
fits in 20 characters so is untruncated, and the 60-second ETA renders as
`(1m)`), and an empty queue renders `"Queue idle"`; both runs report the
backend online. -/
theorem c9_sabnzbd_scenario :
    (updateSabnzbd2Row cfgAll c9Env (AppStatus.init "sabnzbd" 0)).2.primary_info
        = "Downloading: Show.S01E02.mkv @ 5 MB/s (1m)" ∧
    (updateSabnzbd2Row cfgAll c9Env (AppStatus.init "sabnzbd" 0)).2.is_online = true ∧
    (updateSabnzbd2Row cfgAll c9EnvEmpty (AppStatus.init "sabnzbd" 0)).2.primary_info
        = "Queue idle" ∧
    (updateSabnzbd2Row cfgAll c9EnvEmpty (AppStatus.init "sabnzbd" 0)).2.is_online
        = true := by
  refine ⟨by with_unfolding_all rfl, by with_unfolding_all rfl,
          by with_unfolding_all rfl, by with_unfolding_all rfl⟩

/-! ## C6 — relative-date formatting

The claim says dates in the past fall into the month-abbreviation branch.
In the source the chain is `== 0`, `== 1`, `< 7`: every negative
difference satisfies `days_diff < 7`, so past dates render as a negative
`"Nd"` tag (e.g. `"-1d"`), and only dates 7 or more days ahead reach
`strftime("%b %d")`. -/

/-- **C6** (counterexample): one day in the past renders `"-1d"`, not the
claimed month-abbreviation form `"Oct 11"` (clock at noon UTC on
2026-10-12, local zone UTC). -/
theorem c6_counterexample :
    formatUpcomingDate ⟨⟨2026, 10, 12⟩, 43200, 0⟩ "2026-10-11" = "-1d" ∧
    formatUpcomingDate ⟨⟨2026, 10, 12⟩, 43200, 0⟩ "2026-10-11"
      ≠ strftimeBD ⟨2026, 10, 11⟩ := by
  refine ⟨by decide, by decide⟩

/-- **C6** (amended): against the ambient clock, an unparsable string
renders `"Unknown"`; a parse yielding the date `d` (and optional UTC
offset) compares `d` with the current date in the string's own zone — in
the machine's local zone for a naive string — and renders `"Today"` at
difference 0, `"Tomorrow"` at 1, `"{diff}d"` at every other difference
below 7 — including all negative (past) differences — and the
zero-padded month-abbreviation form only at differences of 7 or more. -/
theorem c6_amended_upcoming_date (clk : Clock) (s : String) :
    (upcomingDateParse s = none → formatUpcomingDate clk s = "Unknown") ∧
    (∀ (d : PyDate) (off : Option ℤ), upcomingDateParse s = some (d, off) →
      formatUpcomingDate clk s =
        (if (toOrdinal d : ℤ)
            - (toOrdinal (nowDateIn clk (off.getD clk.localOffsetSec)) : ℤ)
            = 0 then "Today"
         else if (toOrdinal d : ℤ)
            - (toOrdinal (nowDateIn clk (off.getD clk.localOffsetSec)) : ℤ)
            = 1 then "Tomorrow"
         else if (toOrdinal d : ℤ)
            - (toOrdinal (nowDateIn clk (off.getD clk.localOffsetSec)) : ℤ)
            < 7 then
           toString ((toOrdinal d : ℤ)
             - (toOrdinal (nowDateIn clk (off.getD clk.localOffsetSec)) : ℤ))
             ++ "d"
         else monthAbbrev d.month ++ " " ++ pad2 (d.day : ℤ))) := by
  constructor
  · intro h
    simp [formatUpcomingDate, h]
  · intro d off h
    simp [formatUpcomingDate, h, strftimeBD]

/-- Witness for the amended C6 at concrete inputs, the clock at noon UTC
on 2026-10-12 with a UTC local zone: a bare date three days ahead renders
`"3d"`; the space-separated datetime `"2026-10-12 00:05:23"` parses and
renders `"Today"`; and with the clock at 22:00 UTC, an offset-aware
timestamp is compared against "today" in its own `+05:00` zone, where the
instant is already past midnight, so its same calendar date renders
`"-1d"`. -/
theorem c6_amended_witness :
    formatUpcomingDate ⟨⟨2026, 10, 12⟩, 43200, 0⟩ "2026-10-15" = "3d" ∧
    formatUpcomingDate ⟨⟨2026, 10, 12⟩, 43200, 0⟩ "2026-10-12 00:05:23"
      = "Today" ∧
    formatUpcomingDate ⟨⟨2026, 10, 12⟩, 79200, 0⟩ "2026-10-12T23:30:00+05:00"
      = "-1d" := by
  refine ⟨?_, ?_, ?_⟩
  · have h := (c6_amended_upcoming_date ⟨⟨2026, 10, 12⟩, 43200, 0⟩
      "2026-10-15").2 ⟨2026, 10, 15⟩ none (by decide)
    exact h.trans (by decide)
  · have h := (c6_amended_upcoming_date ⟨⟨2026, 10, 12⟩, 43200, 0⟩
      "2026-10-12 00:05:23").2 ⟨2026, 10, 12⟩ none (by decide)
    exact h.trans (by decide)
  · have h := (c6_amended_upcoming_date ⟨⟨2026, 10, 12⟩, 79200, 0⟩
      "2026-10-12T23:30:00+05:00").2 ⟨2026, 10, 12⟩ (some 18000) (by decide)
    exact h.trans (by decide)

/-! ## C4 — compute-eta and zero values

The claim says the ETA is the empty string whenever the remaining size is
zero "for any unit combination".  The source only short-circuits on the
exact strings `""`/`"0 B"` for the size (and `""`/`"0"`/substring
`"0 B/s"` for the speed, plus a numeric `speed_mb <= 0` check); a zero
size written in any other unit (`"0 KB"`, `"0 MB"`, `"0 GB"`, `"0.0 B"`)
sails through, computes a zero ETA, and renders `" (<1m)"`. -/

/-- **C4** (counterexample): a zero remaining size in megabytes with a
positive speed yields `" (<1m)"`, not `""`. -/
theorem c4_counterexample :
    calculateEta "0 MB" "5 MB/s" = " (<1m)" ∧
    calculateEta "0 MB" "5 MB/s" ≠ "" := by
  have h : calculateEta "0 MB" "5 MB/s" = " (<1m)" := by with_unfolding_all rfl
  exact ⟨h, by rw [h]; decide⟩

/-- `clampDouble` keeps an exact zero at zero. -/
theorem clampDouble_zero : clampDouble 0 = PyF.fin 0 := by
  with_unfolding_all rfl

/-- A zero float stays zero under the unit conversion of
`_calculate_eta`, whatever the unit token. -/
theorem toMB_fin_zero (u : String) : toMB (PyF.fin 0) u = PyF.fin 0 := by
  simp only [toMB, pfScaleMul, pfScaleDiv]
  split_ifs <;> simp [clampDouble_zero]

/-- **C4** (amended): the ETA is `""` exactly on the source's guards —
size equal to `""` or `"0 B"`; speed equal to `""` or `"0"` or containing
`"0 B/s"`; either string not two whitespace-separated tokens; a numeric
token `float()` rejects; or a unit-converted speed that is `<= 0`.  When
every guard passes, the parsed size value is an exact 0 (any unit), and
the unit-converted speed is a positive finite value, the result is
`" (<1m)"` — not `""`.  No division by zero occurs: the division is
guarded by the `speed_mb <= 0` check. -/
theorem c4_amended_eta (size_left speed : String) :
    ((size_left = "" ∨ size_left = "0 B" ∨ speed = "" ∨ speed = "0" ∨
        pyInStr "0 B/s" speed = true) → calculateEta size_left speed = "") ∧
    (((pySplitWs size_left).length ≠ 2 ∨ (pySplitWs speed).length ≠ 2 ∨
        pyFloat ((pySplitWs size_left).getD 0 "") = none ∨
        pyFloat ((pySplitWs speed).getD 0 "") = none) →
      calculateEta size_left speed = "") ∧
    (∀ sv pv : PyF,
      pyFloat ((pySplitWs size_left).getD 0 "") = some sv →
      pyFloat ((pySplitWs speed).getD 0 "") = some pv →
      pfLe0 (toMB pv (strReplace (strToUpper ((pySplitWs speed).getD 1 ""))
        "/S" "")) = true →
      calculateEta size_left speed = "") ∧
    (∀ (pv : PyF) (b : ℚ),
      ¬ (size_left = "" ∨ size_left = "0 B") →
      ¬ (speed = "" ∨ speed = "0" ∨ pyInStr "0 B/s" speed = true) →
      (pySplitWs size_left).length = 2 → (pySplitWs speed).length = 2 →
      pyFloat ((pySplitWs size_left).getD 0 "") = some (PyF.fin 0) →
      pyFloat ((pySplitWs speed).getD 0 "") = some pv →
      toMB pv (strReplace (strToUpper ((pySplitWs speed).getD 1 "")) "/S" "")
        = PyF.fin b →
      0 < b →
      calculateEta size_left speed = " (<1m)") := by
  refine ⟨?_, ?_, ?_, ?_⟩
  · intro h
    by_cases hg1 : size_left = "" ∨ size_left = "0 B"
    · simp [calculateEta, hg1]
    · have hg2 : speed = "" ∨ speed = "0" ∨ pyInStr "0 B/s" speed = true := by
        tauto
      simp only [calculateEta]
      rw [if_neg hg1, if_pos (by simpa using hg2)]
  · intro h
    by_cases hg1 : size_left = "" ∨ size_left = "0 B"
    · simp [calculateEta, hg1]
    by_cases hg2 : speed = "" ∨ speed = "0" ∨ (pyInStr "0 B/s" speed : Prop)
    · simp only [calculateEta]
      rw [if_neg hg1, if_pos hg2]
    by_cases hl : (pySplitWs size_left).length ≠ 2 ∨ (pySplitWs speed).length ≠ 2
    · simp only [calculateEta]
      rw [if_neg hg1, if_neg hg2, if_pos hl]
    · simp only [calculateEta]
      rw [if_neg hg1, if_neg hg2, if_neg hl]
      push_neg at hl
      have h' : pyFloat ((pySplitWs size_left).getD 0 "") = none ∨
          pyFloat ((pySplitWs speed).getD 0 "") = none := by
        rcases h with h | h | h | h
        · exact absurd hl.1 h
        · exact absurd hl.2 h
        · exact Or.inl h
        · exact Or.inr h
      rcases h' with h' | h'
      · rw [h']
      · rcases hq : pyFloat ((pySplitWs size_left).getD 0 "") with _ | sv
        · rfl
        · rw [h']
  · intro sv pv hsv hpv hmb
    by_cases hg1 : size_left = "" ∨ size_left = "0 B"
    · simp [calculateEta, hg1]
    by_cases hg2 : speed = "" ∨ speed = "0" ∨ (pyInStr "0 B/s" speed : Prop)
    · simp only [calculateEta]
      rw [if_neg hg1, if_pos hg2]
    by_cases hl : (pySplitWs size_left).length ≠ 2 ∨ (pySplitWs speed).length ≠ 2
    · simp only [calculateEta]
      rw [if_neg hg1, if_neg hg2, if_pos hl]
    · simp only [calculateEta]
      rw [if_neg hg1, if_neg hg2, if_neg hl, hsv, hpv]
      simp only [List.getD, List.get?_eq_getElem?] at hmb
      simp [hmb]
  · intro pv b hg1 hg2 hl1 hl2 hsv hpv hmb hb
    simp only [calculateEta]
    rw [if_neg hg1, if_neg (by simpa using hg2), if_neg (by simp [hl1, hl2]),
      hsv, hpv]
    have hle : ¬ (pfLe0 (PyF.fin b) = true) := by
      simp only [pfLe0, decide_eq_true_eq]
      exact hb.not_le
    have hdiv : pfDiv (PyF.fin 0) (PyF.fin b) = PyF.fin 0 := by
      simp only [pfDiv]
      rw [if_neg hb.ne', zero_div, clampDouble_zero]
    have heta : pfScaleDiv (PyF.fin 0) 60 = PyF.fin 0 := by
      simp only [pfScaleDiv]
      rw [zero_div, clampDouble_zero]
    simp only [toMB_fin_zero, hmb]
    rw [if_neg hle, hdiv, heta,
      if_pos (by norm_num [pfLt] : pfLt (PyF.fin 0) 1 = true)]

/-- Witness for the amended C4: `"0 GB"` at `"2 MB/s"` renders
`" (<1m)"` (last conjunct); `"0 B"` hits the exact-string guard and
renders `""` (first conjunct); and the exponent-notation size `"1e3 MB"`
parses to 1000 MB, giving `" (3m)"` at 5 MB/s. -/
theorem c4_amended_witness :
    calculateEta "0 GB" "2 MB/s" = " (<1m)" ∧ calculateEta "0 B" "2 MB/s" = "" ∧
    calculateEta "1e3 MB" "5 MB/s" = " (3m)" := by
  refine ⟨?_, (c4_amended_eta "0 B" "2 MB/s").1 (Or.inr (Or.inl rfl)),
    by with_unfolding_all rfl⟩
  refine (c4_amended_eta "0 GB" "2 MB/s").2.2.2 (PyF.fin 2) 2 (by decide)
    (by decide) (by decide) (by decide) ?_ ?_ ?_ ?_
  · with_unfolding_all rfl
  · with_unfolding_all rfl
  · with_unfolding_all rfl
  · norm_num

/-! ## C5 — smart truncation length bound

The claim quantifies over *every* `max_length`.  Python computes
`text[:max_length-3] + "..."` in the hard branch; for `max_length < 3`
the slice bound is negative (dropping characters from the end instead)
and the appended ellipsis alone already exceeds the budget, so the bound
fails.  For `max_length ≥ 3` both the bound and the exact-length property
hold. -/

theorem pyTake_length (s : String) (n : ℤ) :
    (pyTake s n).length =
      min (if 0 ≤ n then n.toNat else ((s.length : ℤ) + n).toNat) s.length := by
  unfold pyTake
  split_ifs with h <;> simp [h]

/-- **C5** (counterexample): at `max_length = 0` the output `"a..."` has
length 4, violating the claimed bound. -/
theorem c5_counterexample :
    smartTruncate "abcd" 0 = "a..." ∧ ¬ ((smartTruncate "abcd" 0).length ≤ 0) := by
  refine ⟨by decide, by decide⟩

/-- The condition under which `_smart_truncate` takes its
extension-preserving branch (client.py 195–200). -/
def extBranchApplies (text : String) (max_length : ℤ) : Bool :=
  strContains text '.' && decide (((rsplitDot text).2.length : ℤ) ≤ 4) &&
    decide (max_length - ((rsplitDot text).2.length : ℤ) - 4 > 10)

/-- **C5** (amended): for `3 ≤ max_length` the output of smart-truncate
has length at most `max_length`; and when the text does not fit and the
extension-preserving branch does not apply, the output is hard-truncated
with a trailing ellipsis to exactly `max_length` characters.  For
`max_length < 3` the bound fails (see the counterexample). -/
theorem c5_amended_smart_truncate (text : String) (max_length : ℤ)
    (h3 : 3 ≤ max_length) :
    ((smartTruncate text max_length).length : ℤ) ≤ max_length ∧
    ((text.length : ℤ) > max_length → extBranchApplies text max_length = false →
      ((smartTruncate text max_length).length : ℤ) = max_length) := by
  have hdots : ("..." : String).length = 3 := by decide
  have h0 : (0 : ℤ) ≤ max_length - 3 := by omega
  have hto : (((max_length - 3).toNat : ℤ)) = max_length - 3 := Int.toNat_of_nonneg h0
  have hhard : ((pyTake text (max_length - 3) ++ "...").length : ℤ) ≤ max_length ∧
      ((text.length : ℤ) > max_length →
        ((pyTake text (max_length - 3) ++ "...").length : ℤ) = max_length) := by
    constructor
    · rw [String.length_append, pyTake_length, if_pos h0, hdots]
      rcases min_cases ((max_length - 3).toNat) text.length with ⟨hm, _⟩ | ⟨hm, hle⟩ <;>
        rw [hm] <;> push_cast <;> omega
    · intro hgt
      rw [String.length_append, pyTake_length, if_pos h0, hdots]
      have hmin : min ((max_length - 3).toNat) text.length = (max_length - 3).toNat :=
        min_eq_left (by omega)
      rw [hmin]
      omega
  unfold smartTruncate
  by_cases hfit : (text.length : ℤ) ≤ max_length
  · rw [if_pos hfit]
    exact ⟨hfit, fun hgt _ => absurd hfit (not_le.mpr hgt)⟩
  · rw [if_neg hfit]
    by_cases hdot : strContains text '.' = true
    · rw [if_pos hdot]
      by_cases hext : ((rsplitDot text).2.length : ℤ) ≤ 4
      · rw [if_pos hext]
        by_cases havail : max_length - ((rsplitDot text).2.length : ℤ) - 4 > 10
        · rw [if_pos havail]
          constructor
          · have h4 : (0 : ℤ) ≤ max_length - ((rsplitDot text).2.length : ℤ) - 4 := by
              omega
            rw [String.length_append, String.length_append, pyTake_length,
              if_pos h4, hdots]
            have ht4 : (((max_length - ((rsplitDot text).2.length : ℤ) - 4).toNat : ℤ))
                = max_length - ((rsplitDot text).2.length : ℤ) - 4 :=
              Int.toNat_of_nonneg h4
            rcases min_cases ((max_length - ((rsplitDot text).2.length : ℤ) - 4).toNat)
                ((rsplitDot text).1.length) with ⟨hm, _⟩ | ⟨hm, hle⟩ <;>
              rw [hm] <;> push_cast <;> omega
          · intro hgt hfalse
            exfalso
            have htrue : extBranchApplies text max_length = true := by
              unfold extBranchApplies
              simp only [hdot, Bool.and_eq_true, decide_eq_true_eq]
              exact ⟨⟨trivial, hext⟩, havail⟩
            rw [htrue] at hfalse
            simp at hfalse
        · rw [if_neg havail]
          exact ⟨hhard.1, fun hgt _ => hhard.2 hgt⟩
      · rw [if_neg hext]
        exact ⟨hhard.1, fun hgt _ => hhard.2 hgt⟩
    · rw [if_neg hdot]
      exact ⟨hhard.1, fun hgt _ => hhard.2 hgt⟩

/-- Witness for the amended C5: a 26-character string at `max_length = 10`
(no short extension applies) is hard-truncated to exactly 10 characters. -/
theorem c5_amended_witness :
    ((smartTruncate "abcdefghijklmnopqrstuvwxyz" 10).length : ℤ) ≤ 10 ∧
    ((smartTruncate "abcdefghijklmnopqrstuvwxyz" 10).length : ℤ) = 10 := by
  have h := c5_amended_smart_truncate "abcdefghijklmnopqrstuvwxyz" 10 (by decide)
  exact ⟨h.1, h.2 (by decide) (by decide)⟩

/-! ## C8 — subtitle-manager auth probe on an HTML body -/

/-- **C8** (confirmed): when the Bazarr auth probe answers HTTP 200 with a
content-type containing `text/html`, the adapter reports
`primary_info = "Authentication Error"` (with the fixed secondary hint)
while `is_online` remains `true` — unlike a transport failure, which sets
`is_online` to `false`.  The probe call returns `False` to the
aggregator. -/
theorem c8_bazarr_auth_error (cfg : NZBInfoConfig) (env : AppEnv)
    (st : AppStatus) (ctype : String) (h : pyInStr "text/html" ctype = true) :
    updateBazarr2Row cfg
        { env with bzProbe := fun _ _ => .resp 200 ctype } st =
      (false, { st with is_online := true, title := "Bazarr",
                        primary_info := "Authentication Error",
                        secondary_info := "Check API key configuration" }) := by
  simp [updateBazarr2Row, bzProbeSection, h]

/-- Witness for C8 at a concrete content-type, configuration and record. -/
theorem c8_bazarr_auth_error_witness :
    updateBazarr2Row cfgAll
        { ({} : AppEnv) with
            bzProbe := fun _ _ => .resp 200 "text/html; charset=UTF-8" }
        (AppStatus.init "bazarr" 0) =
      (false, { AppStatus.init "bazarr" 0 with
                  is_online := true, title := "Bazarr",
                  primary_info := "Authentication Error",
                  secondary_info := "Check API key configuration" }) :=
  c8_bazarr_auth_error cfgAll {} (AppStatus.init "bazarr" 0)
    "text/html; charset=UTF-8" (by decide)

/-! ## C3 — a failing secondary fetch degrades only the secondary field -/

theorem sabHistorySection_primary (c : HCall SabHistData) (st : AppStatus) :
    (sabHistorySection c st).primary_info = st.primary_info := by
  rcases c with m | ⟨code, body⟩
  · rfl
  · rcases body with m | hd <;> simp only [sabHistorySection] <;> split_ifs <;> rfl

theorem sabHistorySection_online (c : HCall SabHistData) (st : AppStatus) :
    (sabHistorySection c st).is_online = st.is_online := by
  rcases c with m | ⟨code, body⟩
  · rfl
  · rcases body with m | hd <;> simp only [sabHistorySection] <;> split_ifs <;> rfl

theorem nzbHistorySection_primary (c : HCall NzbHistData) (st : AppStatus) :
    (nzbHistorySection c st).primary_info = st.primary_info := by
  rcases c with m | ⟨code, body⟩
  · rfl
  · rcases body with m | hd <;> simp only [nzbHistorySection] <;> split_ifs <;> rfl

theorem nzbHistorySection_online (c : HCall NzbHistData) (st : AppStatus) :
    (nzbHistorySection c st).is_online = st.is_online := by
  rcases c with m | ⟨code, body⟩
  · rfl
  · rcases body with m | hd <;> simp only [nzbHistorySection] <;> split_ifs <;> rfl

theorem recentSection_primary (c : HCall (Option HistData)) (st : AppStatus) :
    (recentSection c st).primary_info = st.primary_info := by
  rcases c with m | ⟨code, body⟩
  · rfl
  · rcases body with m | hd
    · simp only [recentSection]
      split_ifs <;> rfl
    · rcases hd with _ | hdd <;> simp only [recentSection] <;> split_ifs <;> rfl

theorem recentSection_online (c : HCall (Option HistData)) (st : AppStatus) :
    (recentSection c st).is_online = st.is_online := by
  rcases c with m | ⟨code, body⟩
  · rfl
  · rcases body with m | hd
    · simp only [recentSection]
      split_ifs <;> rfl
    · rcases hd with _ | hdd <;> simp only [recentSection] <;> split_ifs <;> rfl

theorem upcomingSection_online (c : HCall (Option (List CalItem)))
    (clk : Clock) (st : AppStatus) :
    (upcomingSection c clk st).is_online = st.is_online := by
  rcases c with m | ⟨code, body⟩
  · rfl
  · rcases body with m | cd
    · simp only [upcomingSection]
      split_ifs <;> rfl
    · rcases cd with _ | items
      · simp only [upcomingSection]
        split_ifs <;> rfl
      · simp only [upcomingSection]
        split_ifs <;> try rfl
        all_goals {
          rcases hF : items.find? (fun item =>
              (item.monitored.getD false) && !(item.hasFile.getD false)) with _ | up <;>
            simp only [hF] <;> split_ifs <;> rfl
        }

theorem upcomingSection_secondary (c : HCall (Option (List CalItem)))
    (clk : Clock) (st : AppStatus) :
    (upcomingSection c clk st).secondary_info = st.secondary_info := by
  rcases c with m | ⟨code, body⟩
  · rfl
  · rcases body with m | cd
    · simp only [upcomingSection]
      split_ifs <;> rfl
    · rcases cd with _ | items
      · simp only [upcomingSection]
        split_ifs <;> rfl
      · simp only [upcomingSection]
        split_ifs <;> try rfl
        all_goals {
          rcases hF : items.find? (fun item =>
              (item.monitored.getD false) && !(item.hasFile.getD false)) with _ | up <;>
            simp only [hF] <;> split_ifs <;> rfl
        }

theorem sabHistorySection_exn (m : String) (st : AppStatus) :
    sabHistorySection (.exnAt m) st
      = { st with secondary_info := "No recent activity" } := rfl

theorem sabHistorySection_non200 (code : ℕ) (body : Except String SabHistData)
    (st : AppStatus) (h : code ≠ 200) :
    sabHistorySection (.resp code body) st
      = { st with secondary_info := "No recent activity" } := by
  simp only [sabHistorySection]
  rw [if_neg h]

theorem nzbHistorySection_exn (m : String) (st : AppStatus) :
    nzbHistorySection (.exnAt m) st
      = { st with secondary_info := "No recent activity" } := rfl

theorem recentSection_exn (m : String) (st : AppStatus) :
    recentSection (.exnAt m) st
      = { st with secondary_info := "No recent activity" } := rfl

/-- `env` with the SABnzbd queue and history oracles replaced. -/
def withSab (env : AppEnv) (q : String → HCall SabQueueData)
    (h : String → HCall SabHistData) : AppEnv :=
  { env with sabQueue := q, sabHistory := h }

/-- `env` with the NZBget status and history oracles replaced. -/
def withNzb (env : AppEnv) (q : String → HCall NzbStatusData)
    (h : String → HCall NzbHistData) : AppEnv :=
  { env with nzbStatus := q, nzbHistory := h }

/-- `env` with the media-manager calendar and history oracles replaced. -/
def withMedia (env : AppEnv)
    (c : String → List (String × String) → HCall (Option (List CalItem)))
    (h : String → List (String × String) → HCall (Option HistData)) : AppEnv :=
  { env with calendar := c, history := h }

/-- **C3** (confirmed): when a backend's primary call succeeds and its
secondary (history / recent-activity) call fails — raising a transport
exception, or answering non-200 in the SABnzbd case — only
`secondary_info` degrades, to `"No recent activity"`: `is_online` stays
`true`, the update still reports success, and `primary_info` is exactly
what the same primary response produces under *any* other history
outcome `h2`.  Stated for the three adapter families with a
primary-then-history structure (SABnzbd, NZBget, and the four media
managers). -/
theorem c3_secondary_failure_frame (cfg : NZBInfoConfig) (env : AppEnv)
    (st : AppStatus) (msg : String) :
    (∀ (qd : SabQueueData) (h2 : String → HCall SabHistData),
      (updateSabnzbd2Row cfg (withSab env (fun _ => .resp 200 (.ok qd))
          (fun _ => .exnAt msg)) st).2.is_online = true ∧
      (updateSabnzbd2Row cfg (withSab env (fun _ => .resp 200 (.ok qd))
          (fun _ => .exnAt msg)) st).2.secondary_info = "No recent activity" ∧
      (updateSabnzbd2Row cfg (withSab env (fun _ => .resp 200 (.ok qd))
          (fun _ => .exnAt msg)) st).2.primary_info
        = (updateSabnzbd2Row cfg (withSab env (fun _ => .resp 200 (.ok qd))
            h2) st).2.primary_info ∧
      (updateSabnzbd2Row cfg (withSab env (fun _ => .resp 200 (.ok qd))
          (fun _ => .exnAt msg)) st).1 = true) ∧
    (∀ (qd : SabQueueData) (code : ℕ) (body : Except String SabHistData)
        (h2 : String → HCall SabHistData), code ≠ 200 →
      (updateSabnzbd2Row cfg (withSab env (fun _ => .resp 200 (.ok qd))
          (fun _ => .resp code body)) st).2.is_online = true ∧
      (updateSabnzbd2Row cfg (withSab env (fun _ => .resp 200 (.ok qd))
          (fun _ => .resp code body)) st).2.secondary_info = "No recent activity" ∧
      (updateSabnzbd2Row cfg (withSab env (fun _ => .resp 200 (.ok qd))
          (fun _ => .resp code body)) st).2.primary_info
        = (updateSabnzbd2Row cfg (withSab env (fun _ => .resp 200 (.ok qd))
            h2) st).2.primary_info) ∧
    (∀ (nd : NzbStatusData) (h2 : String → HCall NzbHistData),
      (updateNzbget2Row cfg (withNzb env (fun _ => .resp 200 (.ok nd))
          (fun _ => .exnAt msg)) st).2.is_online = true ∧
      (updateNzbget2Row cfg (withNzb env (fun _ => .resp 200 (.ok nd))
          (fun _ => .exnAt msg)) st).2.secondary_info = "No recent activity" ∧
      (updateNzbget2Row cfg (withNzb env (fun _ => .resp 200 (.ok nd))
          (fun _ => .exnAt msg)) st).2.primary_info
        = (updateNzbget2Row cfg (withNzb env (fun _ => .resp 200 (.ok nd))
            h2) st).2.primary_info ∧
      (updateNzbget2Row cfg (withNzb env (fun _ => .resp 200 (.ok nd))
          (fun _ => .exnAt msg)) st).1 = true) ∧
    (∀ (c : String → List (String × String) → HCall (Option (List CalItem)))
        (h2 : String → List (String × String) → HCall (Option HistData)),
      (updateMediaManager2Row cfg (withMedia env c
          (fun _ _ => .exnAt msg)) st).2.is_online = true ∧
      (updateMediaManager2Row cfg (withMedia env c
          (fun _ _ => .exnAt msg)) st).2.secondary_info = "No recent activity" ∧
      (updateMediaManager2Row cfg (withMedia env c
          (fun _ _ => .exnAt msg)) st).2.primary_info
        = (updateMediaManager2Row cfg (withMedia env c h2) st).2.primary_info ∧
      (updateMediaManager2Row cfg (withMedia env c
          (fun _ _ => .exnAt msg)) st).1 = true) := by
  refine ⟨?_, ?_, ?_, ?_⟩
  · intro qd h2
    rcases hjobs : (qd.queue.getD {}).slots.getD [] with _ | ⟨job, rest⟩ <;>
      refine ⟨?_, ?_, ?_, ?_⟩ <;>
        simp [updateSabnzbd2Row, sabTryBody, withSab, hjobs, sabHistorySection_exn,
          sabHistorySection_primary]
  · intro qd code body h2 hcode
    rcases hjobs : (qd.queue.getD {}).slots.getD [] with _ | ⟨job, rest⟩ <;>
      refine ⟨?_, ?_, ?_⟩ <;>
        simp [updateSabnzbd2Row, sabTryBody, withSab, hjobs,
          sabHistorySection_non200 _ _ _ hcode, sabHistorySection_primary]
  · intro nd h2
    by_cases hdr : (0 : ℚ) < (nd.result.getD {}).DownloadRate.getD 0 <;>
      refine ⟨?_, ?_, ?_, ?_⟩ <;>
        simp [updateNzbget2Row, nzbTryBody, withNzb, nzbHistorySection_exn,
          nzbHistorySection_primary, hdr]
  · intro c h2
    refine ⟨?_, ?_, ?_, ?_⟩ <;>
      simp [updateMediaManager2Row, getRecentActivity, getUpcomingContent,
        withMedia, recentSection_exn, recentSection_primary,
        upcomingSection_online, upcomingSection_secondary]

/-- Witness for C3 at concrete inputs: SABnzbd with a successful empty
queue and a 404 history response stays online with
`"No recent activity"`. -/
theorem c3_secondary_failure_frame_witness :
    (updateSabnzbd2Row cfgAll (withSab {} (fun _ => .resp 200 (.ok { queue := some {} }))
        (fun _ => .resp 404 (.error "x"))) (AppStatus.init "sabnzbd" 0)).2.is_online
      = true ∧
    (updateSabnzbd2Row cfgAll (withSab {} (fun _ => .resp 200 (.ok { queue := some {} }))
        (fun _ => .resp 404 (.error "x"))) (AppStatus.init "sabnzbd" 0)).2.secondary_info
      = "No recent activity" := by
  have h := (c3_secondary_failure_frame cfgAll {} (AppStatus.init "sabnzbd" 0)
    "boom").2.1 { queue := some {} } 404 (.error "x") (fun _ => .exnAt "y") (by decide)
  exact ⟨h.1, h.2.1⟩

/-! ## C1 — adapter behaviour under transport failure

The claim says *every* enabled backend ends up `is_online = false` with
non-empty primary/secondary strings when its HTTP calls fail.  Two parts
of that are wrong on the code:

* the four media-manager adapters catch transport failures *inside*
  `_get_upcoming_content` / `_get_recent_activity`, so
  `_update_media_manager_2row` keeps `is_online = True` (set before the
  calls) and returns `True`;
* for the other adapters `secondary_info` is `str(ex)[:50]`, which is the
  empty string whenever the exception's text is empty (as it is for a
  bare `asyncio.TimeoutError`).

Nothing, however, ever raises past `_update_app_status`: in this model
every adapter is total because each HTTP raise is consumed by a
source-level `except`. -/

/-- **C1** (counterexample): sonarr with every HTTP call refusing the
connection stays `is_online = true` and even reports success — the claim
requires `is_online = false`. -/
theorem c1_counterexample :
    updateAppStatus cfgAll
        (withMedia {} (fun _ _ => .exnAt "Connection refused")
          (fun _ _ => .exnAt "Connection refused"))
        "sonarr" [("sonarr", AppStatus.init "sonarr" 0)]
      = (some true,
         [("sonarr",
           { app_name := "sonarr", is_online := true, title := "Sonarr",
             primary_info := "No upcoming data",
             secondary_info := "No recent activity",
             last_updated := 0, raw_data := [] })]) := by
  with_unfolding_all rfl

/-- **C1** (amended): on a transport failure of the primary call,
`_update_app_status` never raises and behaves per adapter family:
SABnzbd, NZBget and Overseerr (and Bazarr, whose probe failure also sets
`title`) return `False` with `is_online = false`,
`primary_info = "Connection Error"` (non-empty) and `secondary_info`
equal to the exception text truncated to 50 characters — which is empty
exactly when the exception text is empty; the four media managers
swallow the failures of both their calls, stay `is_online = true`,
return `True`, and set the non-empty fallback strings
`"No upcoming data"` / `"No recent activity"`. -/
theorem c1_amended_transport_failure (cfg : NZBInfoConfig) (env : AppEnv)
    (st : AppStatus) (msg : String) :
    (cfgHostPresent cfg "sabnzbd" = true →
      updateAppStatus cfg { env with sabQueue := fun _ => .exnAt msg }
          "sabnzbd" [("sabnzbd", st)]
        = (some false,
           [("sabnzbd",
             { st with is_online := false, primary_info := "Connection Error",
                       secondary_info := pyTake msg 50 })])) ∧
    (cfgHostPresent cfg "nzbget" = true →
      updateAppStatus cfg { env with nzbStatus := fun _ => .exnAt msg }
          "nzbget" [("nzbget", st)]
        = (some false,
           [("nzbget",
             { st with is_online := false, primary_info := "Connection Error",
                       secondary_info := pyTake msg 50 })])) ∧
    (cfgHostPresent cfg "overseerr" = true →
      updateAppStatus cfg { env with ovRequests := fun _ _ => .exnAt msg }
          "overseerr" [("overseerr", st)]
        = (some false,
           [("overseerr",
             { st with is_online := false, primary_info := "Connection Error",
                       secondary_info := pyTake msg 50 })])) ∧
    (cfgHostPresent cfg "bazarr" = true →
      updateAppStatus cfg { env with bzProbe := fun _ _ => .exnAt msg }
          "bazarr" [("bazarr", st)]
        = (some false,
           [("bazarr",
             { st with is_online := false, title := "Bazarr",
                       primary_info := "Connection Error",
                       secondary_info := pyTake msg 50 })])) ∧
    (∀ a ∈ (["sonarr", "radarr", "lidarr", "readarr"] : List String),
      cfgHostPresent cfg a = true →
      updateAppStatus cfg
          (withMedia env (fun _ _ => .exnAt msg) (fun _ _ => .exnAt msg))
          a [(a, st)]
        = (some true,
           [(a,
             { st with is_online := true, title := pyTitle st.app_name,
                       primary_info := "No upcoming data",
                       secondary_info := "No recent activity",
                       last_updated := env.now })])) ∧
    (pyTake msg 50 = "" ↔ msg = "") := by
  refine ⟨?_, ?_, ?_, ?_, ?_, ?_⟩
  · intro h
    simp [updateAppStatus, assocGet, assocSet, List.find?, h,
      updateSabnzbd2Row, sabTryBody]
  · intro h
    simp [updateAppStatus, assocGet, assocSet, List.find?, h,
      updateNzbget2Row, nzbTryBody]
  · intro h
    simp [updateAppStatus, assocGet, assocSet, List.find?, h,
      updateOverseerr2Row, ovTryBody]
  · intro h
    simp [updateAppStatus, assocGet, assocSet, List.find?, h,
      updateBazarr2Row, bzProbeSection]
  · intro a ha h
    have hlist : a = "sonarr" ∨ a = "radarr" ∨ a = "lidarr" ∨ a = "readarr" := by
      simpa using ha
    rcases hlist with rfl | rfl | rfl | rfl <;>
      simp [updateAppStatus, assocGet, assocSet, List.find?, h, withMedia,
        updateMediaManager2Row, getUpcomingContent, getRecentActivity,
        upcomingSection, recentSection]
  · rw [pyTake]
    rw [if_pos (by norm_num)]
    constructor
    · intro hh
      have : msg.data.take (50 : ℤ).toNat = [] := congrArg String.data hh
      rcases List.take_eq_nil_iff.mp this with h0 | h0
      · exact absurd h0 (by decide)
      · exact congrArg String.mk (by simpa using h0)
    · intro hh
      rw [hh]
      rfl

/-- Witness for the amended C1 at concrete inputs: SABnzbd under a
connection-refused exception. -/
theorem c1_amended_transport_failure_witness :
    updateAppStatus cfgAll
        { ({} : AppEnv) with sabQueue := fun _ => .exnAt "Cannot connect to host" }
        "sabnzbd" [("sabnzbd", AppStatus.init "sabnzbd" 0)]
      = (some false,
         [("sabnzbd",
           { AppStatus.init "sabnzbd" 0 with
               is_online := false, primary_info := "Connection Error",
               secondary_info := pyTake "Cannot connect to host" 50 })]) :=
  (c1_amended_transport_failure cfgAll {} (AppStatus.init "sabnzbd" 0)
    "Cannot connect to host").1 (by decide)

/-! ## C2 — the polling batch

The claim equates "returns true" with "at least one backend succeeded
(N−K > 0 under K transport failures)".  Because the media-manager
adapters report success even when all their HTTP calls fail (see C1),
`update_all_statuses` can return true with every backend failing at the
transport level.  What does hold: the batch returns true iff at least one
per-backend update returned `True`, and the key set of the status map is
never changed by a batch. -/

theorem assocGet_map_preserve {κ α : Type} [DecidableEq κ]
    (m : List (κ × α)) (k d : κ) (g : α → α) (h : k ≠ d) :
    assocGet (m.map (fun p => if p.1 = d then (p.1, g p.2) else p)) k
      = assocGet m k := by
  induction m with
  | nil => rfl
  | cons p rest ih =>
    by_cases hp : p.1 = d
    · have hk : ¬ (p.1 = k) := fun he => h (he.symm.trans hp)
      simp [assocGet, hp, hk, ih, h, h.symm]
    · by_cases hk : p.1 = k <;> simp [assocGet, hp, hk, ih, h, h.symm]

theorem assocSet_map_fst {κ α : Type} [DecidableEq κ]
    (m : List (κ × α)) (k : κ) (f : α → α) :
    (assocSet m k f).map Prod.fst = m.map Prod.fst := by
  simp only [assocSet, List.map_map]
  exact List.map_congr_left (fun p _ => by by_cases h : p.1 = k <;> simp [h])

theorem assocGet_assocSet_ne {κ α : Type} [DecidableEq κ]
    (m : List (κ × α)) (k d : κ) (f : α → α) (h : k ≠ d) :
    assocGet (assocSet m d f) k = assocGet m k :=
  assocGet_map_preserve m k d (fun v => f v) h

/-- A batch step never adds or removes map keys. -/
theorem updateAppStatus_map_fst (cfg : NZBInfoConfig) (env : AppEnv)
    (a : String) (m : List (String × AppStatus)) :
    ((updateAppStatus cfg env a m).2).map Prod.fst = m.map Prod.fst := by
  rcases hg : assocGet m a with _ | st <;> simp only [updateAppStatus, hg]
  split_ifs <;> simp [assocSet_map_fst]

/-- The boolean a per-backend update returns depends only on that
backend's own map entry. -/
theorem updateAppStatus_fst_eq (cfg : NZBInfoConfig) (env : AppEnv)
    (a : String) (m₁ m₂ : List (String × AppStatus))
    (h : assocGet m₁ a = assocGet m₂ a) :
    (updateAppStatus cfg env a m₁).1 = (updateAppStatus cfg env a m₂).1 := by
  simp only [updateAppStatus, h]
  rcases assocGet m₂ a with _ | st
  · rfl
  · split_ifs <;> rfl

/-- A per-backend update leaves every other backend's entry unchanged. -/
theorem updateAppStatus_get_ne (cfg : NZBInfoConfig) (env : AppEnv)
    (a k : String) (m : List (String × AppStatus)) (h : k ≠ a) :
    assocGet ((updateAppStatus cfg env a m).2) k = assocGet m k := by
  rcases hg : assocGet m a with _ | st <;> simp only [updateAppStatus, hg]
  split_ifs <;> simp [assocGet_assocSet_ne _ _ _ _ h]

theorem updateAll_fold (cfg : NZBInfoConfig) (envs : String → AppEnv)
    (m : List (String × AppStatus)) :
    ∀ (l : List String) (c : ℕ) (mm : List (String × AppStatus)),
      l.Nodup → (∀ k ∈ l, assocGet mm k = assocGet m k) →
      ((l.foldl
          (fun (acc : ℕ × List (String × AppStatus)) a =>
            let r := updateAppStatus cfg (envs a) a acc.2
            (acc.1 + (if r.1 = some true then 1 else 0), r.2))
          (c, mm)).1 > 0 ↔
        c > 0 ∨ ∃ a ∈ l, (updateAppStatus cfg (envs a) a m).1 = some true) ∧
      ((l.foldl
          (fun (acc : ℕ × List (String × AppStatus)) a =>
            let r := updateAppStatus cfg (envs a) a acc.2
            (acc.1 + (if r.1 = some true then 1 else 0), r.2))
          (c, mm)).2).map Prod.fst = mm.map Prod.fst := by
  intro l
  induction l with
  | nil =>
    intro c mm _ _
    simp
  | cons a t ih =>
    intro c mm hnd hagree
    have hnd' := hnd.of_cons
    have hane : a ∉ t := by
      intro hmem
      exact (List.nodup_cons.mp hnd).1 hmem
    have hstep := updateAppStatus_fst_eq cfg (envs a) a mm m
      (hagree a (List.mem_cons_self a t))
    have hagree' : ∀ k ∈ t, assocGet ((updateAppStatus cfg (envs a) a mm).2) k
        = assocGet m k := by
      intro k hk
      have hka : k ≠ a := fun he => hane (he ▸ hk)
      rw [updateAppStatus_get_ne cfg (envs a) a k mm hka]
      exact hagree k (List.mem_cons_of_mem a hk)
    have H := ih (c + (if (updateAppStatus cfg (envs a) a mm).1 = some true
        then 1 else 0)) ((updateAppStatus cfg (envs a) a mm).2) hnd' hagree'
    refine ⟨?_, ?_⟩
    · rw [List.foldl_cons]
      refine H.1.trans ?_
      rw [hstep]
      by_cases hp : (updateAppStatus cfg (envs a) a m).1 = some true <;>
        simp [hp, List.mem_cons] <;> omega
    · rw [List.foldl_cons]
      exact H.2.trans (updateAppStatus_map_fst cfg (envs a) a mm)

/-- **C2** (counterexample): a single enabled media-manager backend with
every HTTP call failing (K = N = 1, so N − K = 0) still makes
`update_all_statuses` return `true` — and even that backend's record says
online.  The claimed "true iff N−K > 0" is false. -/
theorem c2_counterexample :
    updateAllStatuses
        { enabled_apps := ["sonarr"],
          applications := [("sonarr", { host := some "nas.local" })] }
        (fun _ => withMedia {} (fun _ _ => .exnAt "Connection refused")
          (fun _ _ => .exnAt "Connection refused"))
        true [("sonarr", AppStatus.init "sonarr" 0)]
      = (true,
         [("sonarr",
           { app_name := "sonarr", is_online := true, title := "Sonarr",
             primary_info := "No upcoming data",
             secondary_info := "No recent activity",
             last_updated := 0, raw_data := [] })]) := by
  with_unfolding_all rfl

/-- **C2** (amended): with a live session and the status map as `connect`
built it (its keys are exactly the enabled identifiers, assumed
duplicate-free), a batch never adds or removes map entries — the map
keeps exactly one entry per enabled backend — and it returns `true` iff
at least one enabled backend's `_update_app_status` returned `True`.
(With media-manager backends that is weaker than "no transport failure":
their updates return `True` even when every call fails.) -/
theorem c2_amended_update_all (cfg : NZBInfoConfig) (envs : String → AppEnv)
    (m : List (String × AppStatus))
    (hnd : (getEnabledApps cfg).Nodup)
    (hk : m.map Prod.fst = getEnabledApps cfg) :
    (updateAllStatuses cfg envs true m).2.map Prod.fst = getEnabledApps cfg ∧
    ((updateAllStatuses cfg envs true m).1 = true ↔
      ∃ a ∈ getEnabledApps cfg,
        (updateAppStatus cfg (envs a) a m).1 = some true) := by
  have H := updateAll_fold cfg envs m (getEnabledApps cfg) 0 m hnd
    (fun _ _ => rfl)
  have hrun : updateAllStatuses cfg envs true m
      = (decide (((getEnabledApps cfg).foldl
            (fun (acc : ℕ × List (String × AppStatus)) a =>
              let r := updateAppStatus cfg (envs a) a acc.2
              (acc.1 + (if r.1 = some true then 1 else 0), r.2)) (0, m)).1 > 0),
         ((getEnabledApps cfg).foldl
            (fun (acc : ℕ × List (String × AppStatus)) a =>
              let r := updateAppStatus cfg (envs a) a acc.2
              (acc.1 + (if r.1 = some true then 1 else 0), r.2)) (0, m)).2) := rfl
  constructor
  · rw [hrun]
    exact H.2.trans hk
  · rw [hrun]
    simp only [decide_eq_true_eq]
    refine H.1.trans ?_
    simp

/-- Witness for the amended C2 at a concrete configuration, environment
and post-connect map. -/
theorem c2_amended_update_all_witness :
    (updateAllStatuses
        { enabled_apps := ["sabnzbd"],
          applications := [("sabnzbd", { host := some "nas.local" })] }
        (fun _ => ({} : AppEnv)) true
        [("sabnzbd", AppStatus.init "sabnzbd" 0)]).2.map Prod.fst
      = ["sabnzbd"] ∧
    ((updateAllStatuses
        { enabled_apps := ["sabnzbd"],
          applications := [("sabnzbd", { host := some "nas.local" })] }
        (fun _ => ({} : AppEnv)) true
        [("sabnzbd", AppStatus.init "sabnzbd" 0)]).1 = true ↔
      ∃ a ∈ getEnabledApps
          { enabled_apps := ["sabnzbd"],
            applications := [("sabnzbd", { host := some "nas.local" })] },
        (updateAppStatus
            { enabled_apps := ["sabnzbd"],
              applications := [("sabnzbd", { host := some "nas.local" })] }
            (({} : AppEnv)) a
            [("sabnzbd", AppStatus.init "sabnzbd" 0)]).1 = some true) :=
  c2_amended_update_all
    { enabled_apps := ["sabnzbd"],
      applications := [("sabnzbd", { host := some "nas.local" })] }
    (fun _ => ({} : AppEnv))
    [("sabnzbd", AppStatus.init "sabnzbd" 0)]
    (by decide) (by decide)

/-! ## C10 — `get_all_statuses` returns a fresh shallow dict copy -/

theorem assocGet_append_last {κ α : Type} [DecidableEq κ]
    (l : List (κ × α)) (k : κ) (v : α) (h : ∀ p ∈ l, ¬ p.1 = k) :
    assocGet (l ++ [(k, v)]) k = some v := by
  induction l with
  | nil => simp [assocGet]
  | cons p rest ih =>
    simp [assocGet, h p (List.mem_cons_self p rest),
      ih (fun q hq => h q (List.mem_cons_of_mem p hq))]

theorem assocGet_append_ne {κ α : Type} [DecidableEq κ]
    (l : List (κ × α)) (k : κ) (v : α) (k' : κ) (h : ¬ k' = k) :
    assocGet (l ++ [(k, v)]) k' = assocGet l k' := by
  induction l with
  | nil =>
    simp only [List.nil_append, assocGet]
    rw [if_neg (fun he => h he.symm)]
  | cons p rest ih =>
    by_cases hp : p.1 = k' <;> simp [assocGet, hp, ih]

theorem lookupDict_applyDictOp_ne (s : PyStore) (d : ℕ) (op : DictOp)
    (d' : ℕ) (h : d' ≠ d) :
    lookupDict (applyDictOp s d op) d' = lookupDict s d' := by
  simp only [lookupDict, applyDictOp]
  rw [assocGet_map_preserve _ _ _ _ h]

theorem lookupDict_applyDictOps_ne (d : ℕ) (ops : List DictOp) (d' : ℕ)
    (h : d' ≠ d) :
    ∀ s : PyStore, lookupDict (applyDictOps s d ops) d' = lookupDict s d' := by
  induction ops with
  | nil => intro s; rfl
  | cons op rest ih =>
    intro s
    rw [applyDictOps, ih (applyDictOp s d op), lookupDict_applyDictOp_ne s d op d' h]

/-- A per-backend heap update mutates `AppStatus` objects only: the dict
store is untouched. -/
theorem updateAppStatusHeap_dicts (cfg : NZBInfoConfig) (env : AppEnv)
    (a : String) (i : ℕ) (s : PyStore) :
    (updateAppStatusHeap cfg env a i s).dicts = s.dicts := by
  rcases h1 : assocGet (lookupDict s i) a with _ | objId <;>
    simp only [updateAppStatusHeap, h1]
  rcases h2 : lookupObj s objId with _ | status <;> simp only [h2]
  split_ifs <;> rfl

/-- A polling cycle never writes any dict entry. -/
theorem pollAllHeap_dicts (cfg : NZBInfoConfig) (envs : String → AppEnv)
    (i : ℕ) (s : PyStore) :
    (pollAllHeap cfg envs i s).dicts = s.dicts := by
  unfold pollAllHeap
  generalize getEnabledApps cfg = l
  induction l generalizing s with
  | nil => rfl
  | cons a t ih =>
    rw [List.foldl_cons, ih, updateAppStatusHeap_dicts]

/-- **C10** (confirmed): `get_all_statuses` returns a *fresh* dict object
(its id differs from the internal dict's); the copy holds the internal
dict's entries; any sequence of insert/delete mutations a caller performs
on the returned dict leaves the internal dict's entries unchanged; and a
later polling cycle — which only mutates `AppStatus` objects in place —
never adds or removes entries in the returned (or any) dict. -/
theorem c10_get_all_statuses_copy (s : PyStore) (iid : ℕ)
    (cfg : NZBInfoConfig) (envs : String → AppEnv) (ops : List DictOp)
    (hids : ∀ p ∈ s.dicts, p.1 < s.nextId) (hiid : iid < s.nextId) :
    (getAllStatusesHeap s iid).2 ≠ iid ∧
    lookupDict (getAllStatusesHeap s iid).1 (getAllStatusesHeap s iid).2
      = lookupDict s iid ∧
    lookupDict (applyDictOps (getAllStatusesHeap s iid).1
        (getAllStatusesHeap s iid).2 ops) iid = lookupDict s iid ∧
    (∀ d, lookupDict (pollAllHeap cfg envs iid (applyDictOps
          (getAllStatusesHeap s iid).1 (getAllStatusesHeap s iid).2 ops)) d
        = lookupDict (applyDictOps (getAllStatusesHeap s iid).1
            (getAllStatusesHeap s iid).2 ops) d) := by
  have hrid : (getAllStatusesHeap s iid).2 = s.nextId := rfl
  have hne : iid ≠ s.nextId := Nat.ne_of_lt hiid
  refine ⟨?_, ?_, ?_, ?_⟩
  · rw [hrid]
    exact fun he => hne he.symm
  · show lookupDict (getAllStatusesHeap s iid).1 s.nextId = lookupDict s iid
    show (assocGet (s.dicts ++ [(s.nextId, lookupDict s iid)]) s.nextId).getD []
      = lookupDict s iid
    rw [assocGet_append_last _ _ _
      (fun p hp => Nat.ne_of_lt (hids p hp))]
    rfl
  · rw [hrid, lookupDict_applyDictOps_ne s.nextId ops iid hne]
    show (assocGet (s.dicts ++ [(s.nextId, lookupDict s iid)]) iid).getD []
      = lookupDict s iid
    rw [assocGet_append_ne _ _ _ _ hne]
    rfl
  · intro d
    simp only [lookupDict, pollAllHeap_dicts]

/-- Witness for C10 at a concrete one-backend store, a concrete insert on
the returned dict, and a concrete polling cycle. -/
theorem c10_get_all_statuses_copy_witness :
    (getAllStatusesHeap
        ⟨[(0, [("sabnzbd", 0)])], [(0, AppStatus.init "sabnzbd" 0)], 1⟩ 0).2 ≠ 0 ∧
    lookupDict (getAllStatusesHeap
        ⟨[(0, [("sabnzbd", 0)])], [(0, AppStatus.init "sabnzbd" 0)], 1⟩ 0).1
        (getAllStatusesHeap
          ⟨[(0, [("sabnzbd", 0)])], [(0, AppStatus.init "sabnzbd" 0)], 1⟩ 0).2
      = lookupDict ⟨[(0, [("sabnzbd", 0)])], [(0, AppStatus.init "sabnzbd" 0)], 1⟩ 0 ∧
    lookupDict (applyDictOps (getAllStatusesHeap
          ⟨[(0, [("sabnzbd", 0)])], [(0, AppStatus.init "sabnzbd" 0)], 1⟩ 0).1
        (getAllStatusesHeap
          ⟨[(0, [("sabnzbd", 0)])], [(0, AppStatus.init "sabnzbd" 0)], 1⟩ 0).2
        [.delItem "sabnzbd", .setItem "x" 7]) 0
      = lookupDict ⟨[(0, [("sabnzbd", 0)])], [(0, AppStatus.init "sabnzbd" 0)], 1⟩ 0 ∧
    lookupDict (pollAllHeap cfgAll (fun _ => {}) 0 (applyDictOps
          (getAllStatusesHeap
            ⟨[(0, [("sabnzbd", 0)])], [(0, AppStatus.init "sabnzbd" 0)], 1⟩ 0).1
          (getAllStatusesHeap
            ⟨[(0, [("sabnzbd", 0)])], [(0, AppStatus.init "sabnzbd" 0)], 1⟩ 0).2
          [.delItem "sabnzbd", .setItem "x" 7])) 1
      = lookupDict (applyDictOps
          (getAllStatusesHeap
            ⟨[(0, [("sabnzbd", 0)])], [(0, AppStatus.init "sabnzbd" 0)], 1⟩ 0).1
          (getAllStatusesHeap
            ⟨[(0, [("sabnzbd", 0)])], [(0, AppStatus.init "sabnzbd" 0)], 1⟩ 0).2
          [.delItem "sabnzbd", .setItem "x" 7]) 1 := by
  have h := c10_get_all_statuses_copy
    ⟨[(0, [("sabnzbd", 0)])], [(0, AppStatus.init "sabnzbd" 0)], 1⟩ 0 cfgAll
    (fun _ => {}) [.delItem "sabnzbd", .setItem "x" 7]
    (by decide) (by decide)
  exact ⟨h.1, h.2.1, h.2.2.1, h.2.2.2 1⟩
